import Mathlib

/-!
Shallow embedding of the configuration-convergence core of the
`napalm-jtcom` repository (`src/napalm_jtcom`), together with proofs of the
specification claims about it.

Conventions of the embedding:

* Python `int` is embedded as `Int`; Python `str` as `String`;
  Python `bool` as `Bool`; `Optional[T]` as `Option T`.
* A Python `dict[K, V]` is embedded as an association list
  `List (K × V)` whose keys are unique (real dicts never have duplicate
  keys); `dictKeys` embeds iteration over `sorted(d)` (the sorted set of
  keys) and `alist.lookup` embeds `d[k]` / `d.get(k)`.
* `warnings.warn(msg)` side effects are embedded by returning a list of
  warning message strings alongside the ordinary result.
* Functions are translated clause by clause from the Python source files
  named in each doc comment.
-/

/-! ## Generic list and dict helpers -/

/-- Embeds Python `sorted(list_of_ints)`. -/
def sortInt (l : List Int) : List Int :=
  List.insertionSort (· ≤ ·) l

/-- Embeds Python `sorted(set_of_ints)`: the resulting list is strictly
ascending and has each distinct element once. -/
def sortedSet (l : List Int) : List Int :=
  sortInt l.dedup

/-- Association-list lookup: embeds Python `d.get(k)` / `d[k]` for a dict
represented as a key-unique association list. -/
def alist.lookup {α : Type} (m : List (Int × α)) (k : Int) : Option α :=
  (m.find? (fun p => p.1 == k)).map Prod.snd

/-- Embeds Python `k in d`. -/
def alist.hasKey {α : Type} (m : List (Int × α)) (k : Int) : Bool :=
  (m.find? (fun p => p.1 == k)).isSome

/-- Embeds Python iteration `for k in sorted(d)` over a dict: the keys,
deduplicated and sorted ascending. -/
def dictKeys {α : Type} (m : List (Int × α)) : List Int :=
  sortedSet (m.map Prod.fst)

/-- Embeds Python `str(i)` for an `int`. -/
def pyStr (i : Int) : String := toString i

/-- Embeds Python `str([i1, i2, ...])` for a list of ints, e.g. `"[2, 3]"`. -/
def pyListStr (l : List Int) : String :=
  "[" ++ String.intercalate ", " (l.map pyStr) ++ "]"

/-! ## Data model (`src/napalm_jtcom/model/vlan.py`, `model/port.py`) -/

/-- Embeds `VlanEntry` (`model/vlan.py`): current VLAN state as read from
the switch, with port memberships as name strings such as `"Port 3"`. -/
structure VlanEntry where
  vlan_id : Int
  name : String
  tagged_ports : List String := []
  untagged_ports : List String := []
  active : Bool := true
deriving Repr, DecidableEq

/-- Embeds `VlanConfig` (`model/vlan.py`): desired VLAN state.  Note the
source dataclass has exactly these four fields — there is no `state`
field on `VlanConfig`. -/
structure VlanConfig where
  vlan_id : Int
  name : Option String := none
  tagged_ports : List Int := []
  untagged_ports : List Int := []
deriving Repr, DecidableEq

/-- Embeds `VlanChangeSet` (`model/vlan.py`). -/
structure VlanChangeSet where
  create : List VlanConfig := []
  update : List VlanConfig := []
  delete : List Int := []
deriving Repr, DecidableEq

/-- Embeds the `state` literal `"present" | "absent"` of `PortConfig`. -/
inductive PState where
  | present
  | absent
deriving Repr, DecidableEq

/-- Embeds `PortSettings` (`model/port.py`): current port state. -/
structure PortSettings where
  port_id : Int
  name : String
  admin_up : Bool
  speed_duplex : Option String := none
  flow_control : Option Bool := none
deriving Repr, DecidableEq

/-- Embeds `PortConfig` (`model/port.py`): desired port state.  The
dataclass carries a `state` field (documented in the source as
`"absent" to disable it (set admin_up=False)`). -/
structure PortConfig where
  port_id : Int
  admin_up : Option Bool := none
  speed_duplex : Option String := none
  flow_control : Option Bool := none
  state : PState := .present
deriving Repr, DecidableEq

/-- Embeds `DeviceConfig` (`model/config.py`): dicts of VLAN and port
desired state plus string metadata. -/
structure DeviceConfig where
  vlans : List (Int × VlanConfig) := []
  ports : List (Int × PortConfig) := []
  metadata : List (String × String) := []
deriving Repr, DecidableEq

/-! ## Vendor mapping tables (`src/napalm_jtcom/vendor/jtcom/mappings.py`) -/

/-- Embeds `SPEED_DUPLEX_CANONICAL` (`vendor/jtcom/mappings.py`). -/
def SPEED_DUPLEX_CANONICAL : List String :=
  ["Auto", "10M/Half", "10M/Full", "100M/Half", "100M/Full",
   "1000M/Full", "2500M/Full", "10G/Full"]

/-- Embeds `SPEED_DUPLEX_ALIASES` (`vendor/jtcom/mappings.py`): lower-cased
alternative representations mapped to their canonical token. -/
def SPEED_DUPLEX_ALIASES : List (String × String) :=
  [("auto", "Auto"),
   ("10m/half", "10M/Half"),
   ("10m/full", "10M/Full"),
   ("100m/half", "100M/Half"),
   ("100m/full", "100M/Full"),
   ("1000m/full", "1000M/Full"),
   ("1g/full", "1000M/Full"),
   ("2500m/full", "2500M/Full"),
   ("10g/full", "10G/Full"),
   ("10mhalf", "10M/Half"),
   ("10mfull", "10M/Full"),
   ("100mhalf", "100M/Half"),
   ("100mfull", "100M/Full"),
   ("1000mfull", "1000M/Full"),
   ("1gfull", "1000M/Full")]

/-- Embeds Python `SPEED_DUPLEX_ALIASES.get(key)`. -/
def aliasGet (key : String) : Option String :=
  (SPEED_DUPLEX_ALIASES.find? (fun p => p.1 == key)).map Prod.snd

/-! ## Normalizer (`src/napalm_jtcom/utils/normalize.py`) -/

/-- Embeds `normalize_vlan_config` (`utils/normalize.py`): dedupe and sort
both port lists; drop from `tagged_ports` any port also listed untagged. -/
def normalize_vlan_config (cfg : VlanConfig) : VlanConfig :=
  let tagged := sortedSet cfg.tagged_ports
  let untagged := sortedSet cfg.untagged_ports
  let tagged := tagged.filter (fun p => ¬ p ∈ untagged)
  { cfg with tagged_ports := tagged, untagged_ports := untagged }

/-- Embeds `normalize_port_config` (`utils/normalize.py`): canonicalize
`speed_duplex` via the alias table; unknown tokens and `none` pass
through unchanged. -/
def normalize_port_config (cfg : PortConfig) : PortConfig :=
  match cfg.speed_duplex with
  | none => cfg
  | some sd =>
    if sd ∈ SPEED_DUPLEX_CANONICAL then cfg
    else
      match aliasGet sd.toLower with
      | some canonical => { cfg with speed_duplex := some canonical }
      | none => cfg

/-- Embeds Python `sorted(d.items())` for an int-keyed dict (keys are
unique, so the comparison never reaches the values). -/
def sortItems {α : Type} (m : List (Int × α)) : List (Int × α) :=
  List.insertionSort (fun p q => p.1 ≤ q.1) m

/-- Embeds `normalize_device_config` (`utils/normalize.py`): normalize every
VLAN and port, rebuild both dicts with keys sorted ascending, copy the
metadata dict. -/
def normalize_device_config (cfg : DeviceConfig) : DeviceConfig :=
  let vlans := (sortItems cfg.vlans).map (fun p => (p.1, normalize_vlan_config p.2))
  let ports := (sortItems cfg.ports).map (fun p => (p.1, normalize_port_config p.2))
  { vlans := vlans, ports := ports, metadata := cfg.metadata }

/-! ## Plan engine (`src/napalm_jtcom/utils/device_diff.py`) -/

/-- Embeds the `ChangeKind` literal type (`utils/device_diff.py`). -/
inductive ChangeKind where
  | vlan_create
  | vlan_update
  | vlan_delete
  | port_update
deriving Repr, DecidableEq

/-- Values stored in a `Change.details` dict: plain ints, optional strings,
int lists, and the `from`/`to` diff records the plan engine produces. -/
inductive DVal where
  | int (n : Int)
  | optStr (s : Option String)
  | ints (l : List Int)
  | diffOB (f : Option Bool) (t : Bool)
  | diffOS (f : Option String) (t : String)
  | diffL (f t : List Int)
deriving Repr, DecidableEq

/-- Embeds `Change` (`utils/device_diff.py`): one configuration change with
its freeform `details` dict (embedded as an ordered association list). -/
structure Change where
  kind : ChangeKind
  key : String
  details : List (String × DVal) := []
deriving Repr, DecidableEq

/-- Looks a field up in a change's `details` dict. -/
def Change.detail (c : Change) (name : String) : Option DVal :=
  (c.details.find? (fun p => p.1 == name)).map Prod.snd

/-- Embeds `DevicePlan` (`utils/device_diff.py`): the ordered change list
plus a per-kind count summary. -/
structure DevicePlan where
  changes : List Change := []
  summary : List (String × Nat) := []
deriving Repr, DecidableEq

/-- Result of `build_device_plan` together with the `warnings.warn` side
channel (embedded as a list of message strings, in emission order). -/
structure PlanOutput where
  plan : DevicePlan
  warnings : List String := []
deriving Repr, DecidableEq

/-- Embeds the `vlan_create` branch of `build_device_plan` (lines 88-99 of
`utils/device_diff.py`). -/
def vlanCreateChange (vid : Int) (cfg : VlanConfig) : Change :=
  { kind := .vlan_create,
    key := "vlan:" ++ pyStr vid,
    details := [("vlan_id", .int vid),
                ("name", .optStr cfg.name),
                ("tagged_ports", .ints cfg.tagged_ports),
                ("untagged_ports", .ints cfg.untagged_ports)] }

/-- Embeds the `name` diff clause of `build_device_plan` (lines 105-106 of
`utils/device_diff.py`): only when `allow_vlan_rename`, the desired name
is non-`None` and it differs from the current one. -/
def vlanNameDiff (allow_vlan_rename : Bool) (cfg entry : VlanConfig) :
    List (String × DVal) :=
  match cfg.name with
  | some n =>
    if allow_vlan_rename ∧ some n ≠ entry.name then
      [("name", DVal.diffOS entry.name n)]
    else []
  | none => []

/-- Embeds the membership diff clauses of `build_device_plan` (lines
108-118 of `utils/device_diff.py`): sorted-list comparison of each port
list, guarded by `allow_vlan_membership`. -/
def vlanMembershipDiff (allow_vlan_membership : Bool) (cfg entry : VlanConfig) :
    List (String × DVal) :=
  if allow_vlan_membership then
    (if sortInt cfg.tagged_ports ≠ sortInt entry.tagged_ports then
       [("tagged_ports", DVal.diffL (sortInt entry.tagged_ports) (sortInt cfg.tagged_ports))]
     else []) ++
    (if sortInt cfg.untagged_ports ≠ sortInt entry.untagged_ports then
       [("untagged_ports", DVal.diffL (sortInt entry.untagged_ports) (sortInt cfg.untagged_ports))]
     else [])
  else []

/-- Embeds the VLAN field-diff computation of `build_device_plan` (lines
103-118 of `utils/device_diff.py`). -/
def vlanFieldDiffs (allow_vlan_rename allow_vlan_membership : Bool)
    (cfg entry : VlanConfig) : List (String × DVal) :=
  vlanNameDiff allow_vlan_rename cfg entry ++
  vlanMembershipDiff allow_vlan_membership cfg entry

/-- Embeds one iteration of the VLAN loop of `build_device_plan` (lines
85-127 of `utils/device_diff.py`), split into the `creates` contribution
and the `updates` contribution for VLAN id `vid`. -/
def vlanLoopCreate (current desired : DeviceConfig) (vid : Int) : Option Change :=
  match alist.lookup desired.vlans vid with
  | none => none
  | some cfg =>
    if alist.hasKey current.vlans vid then none
    else some (vlanCreateChange vid cfg)

/-- Embeds the `vlan_update` contribution of the VLAN loop of
`build_device_plan` for VLAN id `vid`: emitted only when the VLAN exists
in `current` and at least one field diff exists. -/
def vlanLoopUpdate (allow_vlan_rename allow_vlan_membership : Bool)
    (current desired : DeviceConfig) (vid : Int) : Option Change :=
  match alist.lookup desired.vlans vid with
  | none => none
  | some cfg =>
    match alist.lookup current.vlans vid with
    | none => none
    | some entry =>
      let diffs := vlanFieldDiffs allow_vlan_rename allow_vlan_membership cfg entry
      if diffs = [] then none
      else some { kind := .vlan_update,
                  key := "vlan:" ++ pyStr vid,
                  details := ("vlan_id", .int vid) :: diffs }

/-- Embeds the `admin_up` diff clause of `build_device_plan` (lines 138-145
of `utils/device_diff.py`): the diff is skipped, with a warning, when it
would set `False` on the safety port.  Returns the diff entries together
with the warning, if one was emitted. -/
def portAdminDiff (safety_port_id : Option Int) (pid : Int)
    (cfg_p cur_p : PortConfig) : List (String × DVal) × List String :=
  match cfg_p.admin_up with
  | some a =>
    if some a ≠ cur_p.admin_up then
      if ¬ a ∧ safety_port_id = some pid then
        ([], ["Refusing to disable safety port " ++ pyStr pid ++
              "; skipping admin_up change."])
      else ([("admin_up", DVal.diffOB cur_p.admin_up a)], [])
    else ([], [])
  | none => ([], [])

/-- Embeds the `speed_duplex` diff clause of `build_device_plan` (lines
147-151 of `utils/device_diff.py`). -/
def portSpeedDiff (cfg_p cur_p : PortConfig) : List (String × DVal) :=
  match cfg_p.speed_duplex with
  | some sd =>
    if some sd ≠ cur_p.speed_duplex then
      [("speed_duplex", DVal.diffOS cur_p.speed_duplex sd)]
    else []
  | none => []

/-- Embeds the `flow_control` diff clause of `build_device_plan` (lines
153-157 of `utils/device_diff.py`). -/
def portFlowDiff (cfg_p cur_p : PortConfig) : List (String × DVal) :=
  match cfg_p.flow_control with
  | some fc =>
    if some fc ≠ cur_p.flow_control then
      [("flow_control", DVal.diffOB cur_p.flow_control fc)]
    else []
  | none => []

/-- Combines the three per-field clauses in source order. -/
def portFieldDiffs (safety_port_id : Option Int) (pid : Int)
    (cfg_p cur_p : PortConfig) : List (String × DVal) × List String :=
  ((portAdminDiff safety_port_id pid cfg_p cur_p).1 ++
     portSpeedDiff cfg_p cur_p ++ portFlowDiff cfg_p cur_p,
   (portAdminDiff safety_port_id pid cfg_p cur_p).2)

/-- Embeds one iteration of the port loop of `build_device_plan` (lines
130-166 of `utils/device_diff.py`) for port id `pid`: skip unknown ports,
emit a `port_update` only when the (safety-filtered) diff set is
non-empty. -/
def portLoopChange (safety_port_id : Option Int) (current desired : DeviceConfig)
    (pid : Int) : Option Change × List String :=
  match alist.lookup desired.ports pid with
  | none => (none, [])
  | some cfg_p =>
    match alist.lookup current.ports pid with
    | none => (none, [])
    | some cur_p =>
      let (field_diffs, warns) := portFieldDiffs safety_port_id pid cfg_p cur_p
      if field_diffs = [] then (none, warns)
      else (some { kind := .port_update,
                   key := "port:" ++ pyStr pid,
                   details := ("port_id", .int pid) :: field_diffs }, warns)

/-- Embeds `extra` of `build_device_plan` (line 182 of
`utils/device_diff.py`): the sorted VLAN ids present in `current` but
absent from `desired`, VLAN 1 excepted. -/
def extraVlans (current desired : DeviceConfig) : List Int :=
  sortInt (((current.vlans.map Prod.fst).dedup).filter
    (fun v => ¬ alist.hasKey desired.vlans v ∧ v ≠ 1))

/-- Warning message of `build_device_plan` (lines 184-187 of
`utils/device_diff.py`) for VLANs on the device that the desired config
does not mention. -/
def extraVlansWarning (extra : List Int) : String :=
  "VLANs " ++ pyListStr extra ++
    " exist on the device but are absent from the desired config; " ++
    "pass allow_vlan_delete=True to remove them."

/-- Embeds the delete section of `build_device_plan` (lines 168-188 of
`utils/device_diff.py`): with `allow_vlan_delete`, VLANs present in
`current` but absent from `desired` are deleted in descending VLAN-id
order, always skipping VLAN 1; without it, such VLANs only produce a
warning. -/
def deleteSection (allow_vlan_delete : Bool) (current desired : DeviceConfig) :
    List Change × List String :=
  if allow_vlan_delete then
    (((dictKeys current.vlans).reverse).filterMap (fun vid =>
       if vid = 1 then none
       else if alist.hasKey desired.vlans vid then none
       else some { kind := .vlan_delete,
                   key := "vlan:" ++ pyStr vid,
                   details := [("vlan_id", .int vid)] }), [])
  else
    if extraVlans current desired ≠ [] then
      ([], [extraVlansWarning (extraVlans current desired)])
    else ([], [])

/-- Embeds `build_device_plan` (`utils/device_diff.py`): the ordered plan
`creates ++ updates ++ port_changes ++ deletes` with a per-kind summary,
plus the warnings emitted along the way. -/
def build_device_plan (current desired : DeviceConfig)
    (allow_vlan_delete : Bool := false)
    (allow_vlan_membership : Bool := true)
    (allow_vlan_rename : Bool := true)
    (safety_port_id : Option Int := none) : PlanOutput :=
  let creates := (dictKeys desired.vlans).filterMap (vlanLoopCreate current desired)
  let updates := (dictKeys desired.vlans).filterMap
    (vlanLoopUpdate allow_vlan_rename allow_vlan_membership current desired)
  let portResults := (dictKeys desired.ports).map (portLoopChange safety_port_id current desired)
  let port_changes := portResults.filterMap Prod.fst
  let portWarns := (portResults.map Prod.snd).flatten
  let ds := deleteSection allow_vlan_delete current desired
  { plan := { changes := creates ++ updates ++ port_changes ++ ds.1,
              summary := [("vlan_create", creates.length),
                          ("vlan_update", updates.length),
                          ("port_update", port_changes.length),
                          ("vlan_delete", ds.1.length)] },
    warnings := portWarns ++ ds.2 }

/-! ## VLAN change-set planner (`src/napalm_jtcom/utils/vlan_diff.py`) -/

/-- Splits a character list at its last space: embeds the effect of Python
`name.rsplit(" ", 1)` producing two parts.  Returns `none` when the string
has no space (Python then returns a one-element list). -/
def rsplitLastSpace : List Char → Option (List Char × List Char)
  | [] => none
  | c :: rest =>
    match rsplitLastSpace rest with
    | some (pre, post) => some (c :: pre, post)
    | none => if c = ' ' then some ([], rest) else none

/-- Embeds Python `s.isdigit()` for the ASCII digit strings that occur in
port names. -/
def pyIsDigit (cs : List Char) : Bool :=
  ¬ cs = [] ∧ cs.all (fun c => '0' ≤ c ∧ c ≤ '9')

/-- Embeds Python `int(s)` on a digit string. -/
def digitsToInt (cs : List Char) : Int :=
  (cs.foldl (fun n c => 10 * n + (c.toNat - '0'.toNat)) 0 : Nat)

/-- Embeds `_port_name_to_index` (`model/config.py`): converts `"Port N"` to
the 0-based index `N - 1`, or `none` when unparseable. -/
def port_name_to_index (name : String) : Option Int :=
  match rsplitLastSpace name.toList with
  | some (_, post) => if pyIsDigit post then some (digitsToInt post - 1) else none
  | none => none

/-- Embeds `_port_names_to_indices` (`utils/vlan_diff.py`): the set of
0-based indices of the parseable names (as a list, compared with
set semantics below). -/
def port_names_to_indices (names : List String) : List Int :=
  names.filterMap port_name_to_index

/-- Embeds Python set equality `set(a) == set(b)` for int lists. -/
def listSetEq (a b : List Int) : Bool :=
  a.all (fun x => b.contains x) ∧ b.all (fun x => a.contains x)

/-- Embeds `plan_vlan_changes` (`utils/vlan_diff.py`): the create/update/
delete change set plus the warning side channel.  `current` maps VLAN id
to `VlanEntry`, `desired` maps VLAN id to `VlanConfig`. -/
def plan_vlan_changes (current : List (Int × VlanEntry))
    (desired : List (Int × VlanConfig))
    (allow_delete : Bool := false)
    (allow_membership : Bool := false)
    (allow_rename : Bool := true) : VlanChangeSet × List String :=
  let creates := (dictKeys desired).filterMap (fun vid =>
    if alist.hasKey current vid then none else alist.lookup desired vid)
  let updates := (dictKeys desired).filterMap (fun vid =>
    match alist.lookup desired vid, alist.lookup current vid with
    | some cfg, some entry =>
      let name_changed := allow_rename ∧ cfg.name ≠ none ∧ cfg.name ≠ some entry.name
      let membership_changed :=
        allow_membership ∧
          (¬ listSetEq cfg.untagged_ports (port_names_to_indices entry.untagged_ports) ∨
           ¬ listSetEq cfg.tagged_ports (port_names_to_indices entry.tagged_ports))
      if name_changed ∨ membership_changed then some cfg else none
    | _, _ => none)
  let dw :=
    if allow_delete then
      ((dictKeys current).filterMap (fun vid =>
        if vid = 1 then none
        else if alist.hasKey desired vid then none
        else some vid), [])
    else
      let extra_vids := sortInt (((current.map Prod.fst).dedup).filter
        (fun v => ¬ alist.hasKey desired v ∧ v ≠ 1))
      if extra_vids ≠ [] then
        ([], ["VLANs " ++ pyListStr extra_vids ++
              " exist on switch but are not in desired state; " ++
              "pass allow_delete=True to remove them."])
      else ([], [])
  ({ create := creates, update := updates, delete := dw.1 }, dw.2)

/-! ## Current-state conversion (`DeviceConfig.from_current`, `model/config.py`) -/

/-- Embeds `DeviceConfig.from_current` (`model/config.py`): converts parsed
`VlanEntry` / `PortSettings` current state into a `DeviceConfig`, mapping
`"Port N"` names to 0-based indices and skipping unparseable names. -/
def DeviceConfig.from_current (current_vlans : List (Int × VlanEntry))
    (current_ports : List PortSettings) : DeviceConfig :=
  let vlans := current_vlans.map (fun p =>
    (p.1, { vlan_id := p.1,
            name := some p.2.name,
            tagged_ports := sortInt (p.2.tagged_ports.filterMap port_name_to_index),
            untagged_ports := sortInt (p.2.untagged_ports.filterMap port_name_to_index)
            : VlanConfig }))
  let ports := current_ports.map (fun s =>
    (s.port_id, { port_id := s.port_id,
                  admin_up := some s.admin_up,
                  speed_duplex := s.speed_duplex,
                  flow_control := s.flow_control
                  : PortConfig }))
  { vlans := vlans, ports := ports, metadata := [] }

/-! ## Diff renderer (`src/napalm_jtcom/utils/render.py`) -/

/-- Embeds the dict returned by `render_diff` (`utils/render.py`):
`summary`, `total_changes` and the change list. -/
structure Diff where
  summary : List (String × Nat)
  total_changes : Nat
  changes : List Change
deriving Repr, DecidableEq

/-- Embeds `render_diff` (`utils/render.py`). -/
def render_diff (plan : DevicePlan) : Diff :=
  { summary := plan.summary,
    total_changes := plan.changes.length,
    changes := plan.changes }

/-! ## Apply/verify orchestrator (`JTComDriver.apply_device_config`,
`src/napalm_jtcom/driver.py`) -/

/-- One externally visible side effect of `apply_device_config`: a backup
download, or one write-operation call from the apply loop
(`vlan_create`, `vlan_set_port`, `vlan_delete`, `apply_port_changes`). -/
inductive Eff where
  | backup
  | vlan_create (vid : Int) (name : Option String)
  | vlan_set_port (port_ids : List Int) (vlan_type : String)
      (access_vlan : Option Int) (native_vlan : Option Int) (permit_vlans : List Int)
  | vlan_delete (vids : List Int)
  | port_update (pid : Int)
deriving Repr, DecidableEq

/-- Embeds `JTComVerificationError` (`client/errors.py`): the error raised
when post-apply verification finds residual differences, carrying the
rendered residual diff. -/
structure JTComVerificationError where
  remaining_diff : Diff
deriving Repr, DecidableEq

/-- Embeds the result dict of `apply_device_config` (`driver.py`). -/
structure ApplyResult where
  changed : Bool
  diff : Diff
  backup_file : String
  applied : List String
deriving Repr, DecidableEq

/-- Environment of one `apply_device_config` call: what the collaborators
(session reads, backup download, `optional_args`) return.  The model
covers the paths on which every collaborator call succeeds; a raised
collaborator error aborts the Python method unmodified. -/
structure DriverEnv where
  safety_port_id : Int := 6
  backup_default : Bool := true
  backup_path : String := ""
  current_vlans : List (Int × VlanEntry) := []
  current_ports : List PortSettings := []
  post_vlans : List (Int × VlanEntry) := []
  post_ports : List PortSettings := []

/-- Embeds the apply loop body of `apply_device_config` (`driver.py` lines
521-555): the write-operation calls made for one change. -/
def applyChangeEffects (desired_n : DeviceConfig) (ch : Change) : List Eff :=
  match ch.kind with
  | .vlan_create | .vlan_update =>
    match ch.detail "vlan_id" with
    | some (.int vid) =>
      match alist.lookup desired_n.vlans vid with
      | some vc =>
        [Eff.vlan_create vc.vlan_id vc.name] ++
        (if ¬ vc.untagged_ports = [] then
           [Eff.vlan_set_port vc.untagged_ports "access" (some vc.vlan_id) none []]
         else []) ++
        (if ¬ vc.tagged_ports = [] then
           [Eff.vlan_set_port vc.tagged_ports "trunk" none (some 1) [vc.vlan_id]]
         else [])
      | none => []
    | _ => []
  | .vlan_delete =>
    match ch.detail "vlan_id" with
    | some (.int vid) => [Eff.vlan_delete [vid]]
    | _ => []
  | .port_update =>
    match ch.detail "port_id" with
    | some (.int pid) => [Eff.port_update pid]
    | _ => []

/-- Embeds `JTComDriver.apply_device_config` (`driver.py` lines 452-574) on
an open session: read and normalize current state, build the plan (with
`allow_vlan_delete` left at its default), return early on an empty plan or
in check mode, otherwise back up (when requested), apply every change in
plan order, re-read and verify.  Returns the result or the verification
error, paired with the ordered list of performed side effects. -/
def apply_device_config (env : DriverEnv) (desired : DeviceConfig)
    (check_mode : Bool := false)
    (backup_before_change : Option Bool := none) :
    Except JTComVerificationError ApplyResult × List Eff :=
  let current_cfg := DeviceConfig.from_current env.current_vlans env.current_ports
  let current_n := normalize_device_config current_cfg
  let desired_n := normalize_device_config desired
  let planOut := build_device_plan current_n desired_n false true true
    (some env.safety_port_id)
  let plan := planOut.plan
  let diff := render_diff plan
  if plan.changes = [] then
    (.ok { changed := false, diff := diff, backup_file := "", applied := [] }, [])
  else if check_mode then
    (.ok { changed := true, diff := diff, backup_file := "", applied := [] }, [])
  else
    let do_backup := backup_before_change.getD env.backup_default
    let backup_file := if do_backup then env.backup_path else ""
    let backupEffs := if do_backup then [Eff.backup] else []
    let applyEffs := (plan.changes.map (applyChangeEffects desired_n)).flatten
    let applied := plan.changes.map Change.key
    let post_cfg := DeviceConfig.from_current env.post_vlans env.post_ports
    let post_n := normalize_device_config post_cfg
    let residualOut := build_device_plan post_n desired_n false true true
      (some env.safety_port_id)
    if ¬ residualOut.plan.changes = [] then
      (.error { remaining_diff := render_diff residualOut.plan }, backupEffs ++ applyEffs)
    else
      (.ok { changed := true, diff := diff, backup_file := backup_file,
             applied := applied }, backupEffs ++ applyEffs)

/-! ## Session POST path (`JTComSession.post`, `src/napalm_jtcom/client/session.py`) -/

/-- Embeds `CODE_OK` (`client/errors.py`). -/
def CODE_OK : Int := 0

/-- Embeds `CODE_AUTH_EXPIRED` (`client/errors.py`). -/
def CODE_AUTH_EXPIRED : Int := 11

/-- Embeds the parsed JSON body `{"code": int, "data": str}` of one switch
POST response. -/
structure PostResp where
  code : Int
  data : String := ""
deriving Repr, DecidableEq

/-- Embeds `JTComSwitchError` (`client/errors.py`): code, message, endpoint
and the raw payload. -/
structure JTComSwitchError where
  code : Int
  message : String
  endpoint : String
  payload : PostResp
deriving Repr, DecidableEq

/-- Trace of one `JTComSession.post` call: the returned or raised value,
the number of `_do_post` calls sent to the device, and the number of
mid-call re-logins performed. -/
structure PostTrace where
  result : Except JTComSwitchError PostResp
  posts_sent : Nat
  relogins : Nat
deriving Repr

/-- Embeds `JTComSession.post` (`client/session.py` lines 148-185) on a
logged-in session whose re-login succeeds: `resp1` is the device's
response to the first POST and `resp2` its response to the retried POST
(consulted only when a retry happens). -/
def session_post (path : String) (resp1 resp2 : PostResp) : PostTrace :=
  let (result, posts, logins) :=
    if resp1.code = CODE_AUTH_EXPIRED then (resp2, 2, 1) else (resp1, 1, 0)
  if ¬ result.code = CODE_OK then
    { result := .error { code := result.code, message := result.data,
                         endpoint := path, payload := result },
      posts_sent := posts, relogins := logins }
  else
    { result := .ok result, posts_sent := posts, relogins := logins }

/-! ## Concrete inputs used by witnesses and counterexamples, and the driver plan shorthands -/

/-- Concrete current config with VLANs 1 and 2, exercising the delete path
of claim C1. -/
def c1cur : DeviceConfig := { vlans := [(1, {vlan_id := 1}), (2, {vlan_id := 2})] }

/-- Concrete current VLAN-entry map for the `plan_vlan_changes` half of
claim C1. -/
def c1curE : List (Int × VlanEntry) :=
  [(1, {vlan_id := 1, name := "default"}), (2, {vlan_id := 2, name := "lab"})]

/-- Concrete `vlan_delete` change produced at `c1cur` with deletes enabled. -/
def c1del : Change :=
  { kind := ChangeKind.vlan_delete, key := "vlan:2", details := [("vlan_id", DVal.int 2)] }

/-- Concrete desired config creating VLAN 3, used by the C2 witness. -/
def c2des : DeviceConfig := { vlans := [(3, {vlan_id := 3})] }

/-- Concrete current config for the C3 counterexample: safety port 6 is
administratively down. -/
def c3cur : DeviceConfig := { ports := [(6, {port_id := 6, admin_up := some false})] }

/-- Concrete desired config for the C3 counterexample: port 6 is marked
`state=absent` (per the spec this forces `admin_up=False`) while its
explicit `admin_up` field says `True`. -/
def c3des : DeviceConfig :=
  { ports := [(6, {port_id := 6, admin_up := some true, state := PState.absent})] }

/-- Concrete current config for the C3 witness: safety port 6 up, speed
`Auto`. -/
def c3wcur : DeviceConfig :=
  { ports := [(6, {port_id := 6, admin_up := some true, speed_duplex := some "Auto"})] }

/-- Concrete desired config for the C3 witness: disable safety port 6 and
change its speed. -/
def c3wdes : DeviceConfig :=
  { ports := [(6, {port_id := 6, admin_up := some false, speed_duplex := some "1000M/Full"})] }

/-- The single change the plan emits at `c3wcur`/`c3wdes`: the speed diff
survives, the `admin_up` diff is suppressed. -/
def c3wch : Change :=
  { kind := ChangeKind.port_update, key := "port:6",
    details := [("port_id", DVal.int 6),
                ("speed_duplex", DVal.diffOS (some "Auto") "1000M/Full")] }

/-- Concrete current config for claim C4: port 1 exists and is
administratively up. -/
def c4cur : DeviceConfig := { ports := [(1, {port_id := 1, admin_up := some true})] }

/-- Concrete desired config for claim C4: port 1 marked `state=absent`
with no explicit `admin_up` (exactly how the Ansible front end renders
`state: absent`). -/
def c4des : DeviceConfig := { ports := [(1, {port_id := 1, state := PState.absent})] }

/-- Concrete current config for claim C5: VLANs 1 and 10 exist. -/
def c5cur : DeviceConfig := { vlans := [(1, {vlan_id := 1}), (10, {vlan_id := 10})] }

/-- Concrete desired config for claim C5: VLAN 10 is listed.  The
`VlanConfig` dataclass has no `state` field, so "marked `state=absent`"
cannot even be expressed against the model the plan engine reads. -/
def c5des : DeviceConfig := { vlans := [(10, {vlan_id := 10})] }

/-- Environment whose device has no VLANs and no ports, for the C7 and C8
witnesses. -/
def c7env : DriverEnv := {}

/-- Desired config creating VLAN 10, giving a non-empty plan against the
empty device. -/
def c7des : DeviceConfig := { vlans := [(10, {vlan_id := 10})] }

/-- Desired config for the C8 witness: VLAN 10 named `x`. -/
def c8des : DeviceConfig := { vlans := [(10, {vlan_id := 10, name := some "x"})] }

/-- Environment for the C8 success case: the device is empty before apply
and shows VLAN 10 named `x` after apply, so the residual plan is empty. -/
def c8envOk : DriverEnv := { post_vlans := [(10, {vlan_id := 10, name := "x"})] }

/-- Environment for the C10 witness: the device carries VLANs 1 and 2. -/
def c10env : DriverEnv :=
  { current_vlans := [(1, {vlan_id := 1, name := "default"}),
                      (2, {vlan_id := 2, name := "extra"})] }

/-- The `vlan_create` change for VLAN 10 the plan emits at
`c7env`/`c7des`, used by the C10 witness. -/
def c10ch : Change :=
  { kind := ChangeKind.vlan_create, key := "vlan:10",
    details := [("vlan_id", DVal.int 10), ("name", DVal.optStr none),
                ("tagged_ports", DVal.ints []), ("untagged_ports", DVal.ints [])] }

/-- The plan `apply_device_config` computes before applying (`driver.py`
lines 492-502): current state read, converted, normalized, and diffed
against the normalized desired config with `allow_vlan_delete` left at its
default `False`. -/
def applyPlan (env : DriverEnv) (desired : DeviceConfig) : PlanOutput :=
  build_device_plan
    (normalize_device_config (DeviceConfig.from_current env.current_vlans env.current_ports))
    (normalize_device_config desired) false true true (some env.safety_port_id)

/-- The residual plan `apply_device_config` computes after applying
(`driver.py` lines 557-565), against the same normalized desired config. -/
def residualPlan (env : DriverEnv) (desired : DeviceConfig) : PlanOutput :=
  build_device_plan
    (normalize_device_config (DeviceConfig.from_current env.post_vlans env.post_ports))
    (normalize_device_config desired) false true true (some env.safety_port_id)

/-! ## Derived accessors used by the claim statements -/

/-- Reads an integer-valued `details` entry of a change, such as
`details["vlan_id"]` or `details["port_id"]`. -/
def Change.detailInt (c : Change) (name : String) : Option Int :=
  match c.detail name with
  | some (DVal.int n) => some n
  | _ => none

/-- Position of a change kind in the documented apply order of
`DevicePlan`: creates, then updates, then port updates, then deletes. -/
def Change.kindRank (c : Change) : Nat :=
  match c.kind with
  | .vlan_create => 0
  | .vlan_update => 1
  | .port_update => 2
  | .vlan_delete => 3

/-- Modelled from the spec: the `admin_up` value a desired `PortConfig`
resolves to under the spec's reading of `state` (§4.2 of the spec:
`state=absent` is sugar for / forces `admin_up=False`; `state=present`
leaves the explicit field).  The plan engine in the source never reads
`state`, which is what claims C3 and C4 probe. -/
def specResolvedAdminUp (cfg : PortConfig) : Option Bool :=
  match cfg.state with
  | .absent => some false
  | .present => cfg.admin_up

/-! ## Helper lemmas about the dict-key iteration order -/

theorem sortInt_sorted (l : List Int) : (sortInt l).Sorted (· ≤ ·) :=
  List.sorted_insertionSort _ l

theorem sortInt_perm (l : List Int) : (sortInt l).Perm l :=
  List.perm_insertionSort _ l

theorem sortInt_mem {x : Int} {l : List Int} : x ∈ sortInt l ↔ x ∈ l :=
  (sortInt_perm l).mem_iff

theorem sortedSet_nodup (l : List Int) : (sortedSet l).Nodup :=
  (sortInt_perm l.dedup).symm.nodup (List.nodup_dedup l)

theorem sortedSet_mem {x : Int} {l : List Int} : x ∈ sortedSet l ↔ x ∈ l := by
  unfold sortedSet
  rw [sortInt_mem, List.mem_dedup]

theorem sortedSet_pairwise_lt (l : List Int) : (sortedSet l).Pairwise (· < ·) := by
  have hs : (sortedSet l).Pairwise (· ≤ ·) := sortInt_sorted l.dedup
  have hn : (sortedSet l).Pairwise (· ≠ ·) := sortedSet_nodup l
  exact (hs.and hn).imp (fun h => lt_of_le_of_ne h.1 h.2)

theorem dictKeys_pairwise_lt {α : Type} (m : List (Int × α)) :
    (dictKeys m).Pairwise (· < ·) :=
  sortedSet_pairwise_lt _

theorem dictKeys_mem {α : Type} {m : List (Int × α)} {k : Int} :
    k ∈ dictKeys m ↔ k ∈ m.map Prod.fst := sortedSet_mem

theorem alist.lookup_mem_keys {α : Type} {m : List (Int × α)} {k : Int} {v : α}
    (h : alist.lookup m k = some v) : k ∈ m.map Prod.fst := by
  unfold alist.lookup at h
  rcases Option.map_eq_some'.mp h with ⟨p, hp, hv⟩
  have hk : p.1 = k := by
    have := List.find?_some hp
    exact by simpa using this
  have hm : p ∈ m := List.mem_of_find?_eq_some hp
  exact hk ▸ List.mem_map_of_mem Prod.fst hm

theorem alist.hasKey_of_lookup {α : Type} {m : List (Int × α)} {k : Int} {v : α}
    (h : alist.lookup m k = some v) : alist.hasKey m k = true := by
  unfold alist.lookup at h
  unfold alist.hasKey
  rcases Option.map_eq_some'.mp h with ⟨p, hp, _⟩
  simp [hp]

theorem alist.lookup_of_hasKey {α : Type} {m : List (Int × α)} {k : Int}
    (h : alist.hasKey m k = true) : ∃ v, alist.lookup m k = some v := by
  unfold alist.hasKey at h
  unfold alist.lookup
  rcases Option.isSome_iff_exists.mp h with ⟨p, hp⟩
  exact ⟨p.2, by simp [hp]⟩

theorem alist.hasKey_of_mem_keys {α : Type} {m : List (Int × α)} {k : Int}
    (h : k ∈ m.map Prod.fst) : alist.hasKey m k = true := by
  unfold alist.hasKey
  rcases List.mem_map.mp h with ⟨p, hp, hk⟩
  rw [List.find?_isSome]
  exact ⟨p, hp, by simp [hk]⟩

/-! ## Shape lemmas about the plan generators -/

theorem vlanNameDiff_names (r : Bool) (cfg entry : VlanConfig) :
    ∀ e ∈ vlanNameDiff r cfg entry, e.1 = "name" := by
  intro e he
  unfold vlanNameDiff at he
  split at he
  · split at he
    · simp at he; simp [he]
    · simp at he
  · simp at he

theorem vlanMembershipDiff_names (m : Bool) (cfg entry : VlanConfig) :
    ∀ e ∈ vlanMembershipDiff m cfg entry,
      e.1 = "tagged_ports" ∨ e.1 = "untagged_ports" := by
  intro e he
  unfold vlanMembershipDiff at he
  split at he
  · rcases List.mem_append.mp he with h | h
    · split at h
      · simp at h; simp [h]
      · simp at h
    · split at h
      · simp at h; simp [h]
      · simp at h
  · simp at he

theorem vlanFieldDiffs_names (r m : Bool) (cfg entry : VlanConfig) :
    ∀ e ∈ vlanFieldDiffs r m cfg entry,
      e.1 = "name" ∨ e.1 = "tagged_ports" ∨ e.1 = "untagged_ports" := by
  intro e he
  rcases List.mem_append.mp he with h | h
  · exact Or.inl (vlanNameDiff_names r cfg entry e h)
  · exact Or.inr (vlanMembershipDiff_names m cfg entry e h)

theorem portAdminDiff_names (s : Option Int) (pid : Int) (cfg cur : PortConfig) :
    ∀ e ∈ (portAdminDiff s pid cfg cur).1, e.1 = "admin_up" := by
  intro e he
  unfold portAdminDiff at he
  split at he
  · split at he
    · split at he
      · simp at he
      · simp at he; simp [he]
    · simp at he
  · simp at he

theorem portSpeedDiff_names (cfg cur : PortConfig) :
    ∀ e ∈ portSpeedDiff cfg cur, e.1 = "speed_duplex" := by
  intro e he
  unfold portSpeedDiff at he
  split at he
  · split at he
    · simp at he; simp [he]
    · simp at he
  · simp at he

theorem portFlowDiff_names (cfg cur : PortConfig) :
    ∀ e ∈ portFlowDiff cfg cur, e.1 = "flow_control" := by
  intro e he
  unfold portFlowDiff at he
  split at he
  · split at he
    · simp at he; simp [he]
    · simp at he
  · simp at he

theorem portFieldDiffs_names (s : Option Int) (pid : Int) (cfg cur : PortConfig) :
    ∀ e ∈ (portFieldDiffs s pid cfg cur).1,
      e.1 = "admin_up" ∨ e.1 = "speed_duplex" ∨ e.1 = "flow_control" := by
  intro e he
  unfold portFieldDiffs at he
  rcases List.mem_append.mp he with h | h
  · rcases List.mem_append.mp h with h2 | h2
    · exact Or.inl (portAdminDiff_names s pid cfg cur e h2)
    · exact Or.inr (Or.inl (portSpeedDiff_names cfg cur e h2))
  · exact Or.inr (Or.inr (portFlowDiff_names cfg cur e h))

theorem Change.detail_eq_none_of_names {ch : Change} {s : String}
    (h : ∀ e ∈ ch.details, ¬ e.1 = s) : ch.detail s = none := by
  unfold Change.detail
  rw [List.find?_eq_none.mpr]
  · rfl
  · intro p hp
    simpa using h p hp

theorem Change.detailInt_eq_none_of_names {ch : Change} {s : String}
    (h : ∀ e ∈ ch.details, ¬ e.1 = s) : ch.detailInt s = none := by
  unfold Change.detailInt
  rw [Change.detail_eq_none_of_names h]

theorem vlanLoopCreate_shape {current desired : DeviceConfig} {vid : Int} {ch : Change}
    (h : vlanLoopCreate current desired vid = some ch) :
    ∃ cfg, alist.lookup desired.vlans vid = some cfg ∧
      alist.hasKey current.vlans vid = false ∧
      ch = vlanCreateChange vid cfg := by
  unfold vlanLoopCreate at h
  cases hl : alist.lookup desired.vlans vid with
  | none => rw [hl] at h; simp at h
  | some cfg =>
    rw [hl] at h
    cases hk : alist.hasKey current.vlans vid with
    | true => rw [hk] at h; simp at h
    | false =>
      rw [hk] at h
      simp at h
      exact ⟨cfg, rfl, rfl, h.symm⟩

theorem vlanLoopUpdate_shape {r m : Bool} {current desired : DeviceConfig}
    {vid : Int} {ch : Change}
    (h : vlanLoopUpdate r m current desired vid = some ch) :
    ∃ cfg entry, alist.lookup desired.vlans vid = some cfg ∧
      alist.lookup current.vlans vid = some entry ∧
      ¬ vlanFieldDiffs r m cfg entry = [] ∧
      ch = { kind := .vlan_update,
             key := "vlan:" ++ pyStr vid,
             details := ("vlan_id", DVal.int vid) :: vlanFieldDiffs r m cfg entry } := by
  unfold vlanLoopUpdate at h
  cases hl : alist.lookup desired.vlans vid with
  | none => simp [hl] at h
  | some cfg =>
    cases hc : alist.lookup current.vlans vid with
    | none => simp [hl, hc] at h
    | some entry =>
      simp only [hl, hc] at h
      split at h
      · simp at h
      · next hd =>
        simp at h
        exact ⟨cfg, entry, rfl, rfl, hd, h.symm⟩

theorem portLoopChange_shape {s : Option Int} {current desired : DeviceConfig}
    {pid : Int} {ch : Change}
    (h : (portLoopChange s current desired pid).1 = some ch) :
    ∃ cfg_p cur_p, alist.lookup desired.ports pid = some cfg_p ∧
      alist.lookup current.ports pid = some cur_p ∧
      ¬ (portFieldDiffs s pid cfg_p cur_p).1 = [] ∧
      ch = { kind := .port_update,
             key := "port:" ++ pyStr pid,
             details := ("port_id", DVal.int pid) :: (portFieldDiffs s pid cfg_p cur_p).1 } := by
  unfold portLoopChange at h
  cases hl : alist.lookup desired.ports pid with
  | none => simp [hl] at h
  | some cfg_p =>
    cases hc : alist.lookup current.ports pid with
    | none => simp [hl, hc] at h
    | some cur_p =>
      simp only [hl, hc] at h
      split at h
      · simp at h
      · next hd =>
        simp at h
        exact ⟨cfg_p, cur_p, rfl, rfl, hd, h.symm⟩

theorem deleteSection_false (current desired : DeviceConfig) :
    (deleteSection false current desired).1 = [] := by
  unfold deleteSection
  split
  · next hcond => simp at hcond
  · split <;> rfl

theorem deleteSection_shape {avd : Bool} {current desired : DeviceConfig} {ch : Change}
    (h : ch ∈ (deleteSection avd current desired).1) :
    avd = true ∧ ∃ vid, ¬ vid = 1 ∧ alist.hasKey desired.vlans vid = false ∧
      vid ∈ dictKeys current.vlans ∧
      ch = { kind := .vlan_delete,
             key := "vlan:" ++ pyStr vid,
             details := [("vlan_id", DVal.int vid)] } := by
  cases avd with
  | false => rw [deleteSection_false] at h; simp at h
  | true =>
    refine ⟨rfl, ?_⟩
    unfold deleteSection at h
    simp only [if_pos rfl] at h
    rcases List.mem_filterMap.mp h with ⟨vid, hmem, hsome⟩
    by_cases h1 : vid = (1 : Int)
    · rw [if_pos h1] at hsome; simp at hsome
    · rw [if_neg h1] at hsome
      cases hk : alist.hasKey desired.vlans vid with
      | true => rw [hk] at hsome; simp at hsome
      | false =>
        rw [hk] at hsome
        simp at hsome
        exact ⟨vid, h1, hk, List.mem_reverse.mp hmem, hsome.symm⟩

/-! ## Decomposition of `build_device_plan` output -/

theorem build_device_plan_changes (current desired : DeviceConfig)
    (avd avm avr : Bool) (safety : Option Int) :
    (build_device_plan current desired avd avm avr safety).plan.changes =
      (dictKeys desired.vlans).filterMap (vlanLoopCreate current desired) ++
      (dictKeys desired.vlans).filterMap (vlanLoopUpdate avr avm current desired) ++
      ((dictKeys desired.ports).map (portLoopChange safety current desired)).filterMap Prod.fst ++
      (deleteSection avd current desired).1 := rfl

theorem build_device_plan_warnings (current desired : DeviceConfig)
    (avd avm avr : Bool) (safety : Option Int) :
    (build_device_plan current desired avd avm avr safety).warnings =
      (((dictKeys desired.ports).map (portLoopChange safety current desired)).map Prod.snd).flatten ++
      (deleteSection avd current desired).2 := rfl

theorem mem_build_device_plan_cases {current desired : DeviceConfig}
    {avd avm avr : Bool} {safety : Option Int} {ch : Change}
    (h : ch ∈ (build_device_plan current desired avd avm avr safety).plan.changes) :
    (∃ vid ∈ dictKeys desired.vlans, vlanLoopCreate current desired vid = some ch) ∨
    (∃ vid ∈ dictKeys desired.vlans, vlanLoopUpdate avr avm current desired vid = some ch) ∨
    (∃ pid ∈ dictKeys desired.ports, (portLoopChange safety current desired pid).1 = some ch) ∨
    ch ∈ (deleteSection avd current desired).1 := by
  rw [build_device_plan_changes] at h
  rcases List.mem_append.mp h with h | hd
  · rcases List.mem_append.mp h with h | hp
    · rcases List.mem_append.mp h with hc | hu
      · exact Or.inl (List.mem_filterMap.mp hc)
      · exact Or.inr (Or.inl (List.mem_filterMap.mp hu))
    · rcases List.mem_filterMap.mp hp with ⟨pr, hpr, hsome⟩
      rcases List.mem_map.mp hpr with ⟨pid, hpid, hpr2⟩
      exact Or.inr (Or.inr (Or.inl ⟨pid, hpid, by rw [hpr2]; exact hsome⟩))
  · exact Or.inr (Or.inr (Or.inr hd))

/-! ## Claim C1 -/

/-- Claim C1: for every pair of current and desired `DeviceConfig` and every
flag combination, the plan returned by `build_device_plan` never contains a
change of kind `vlan_delete` whose `vlan_id` is 1, and `plan_vlan_changes`
never places VLAN 1 in its delete list — even when the desired config omits
VLAN 1 and deletes are enabled. -/
theorem claim_C1_vlan1_immutable (current desired : DeviceConfig) (avd avm avr : Bool)
    (safety : Option Int)
    (cur : List (Int × VlanEntry)) (des : List (Int × VlanConfig)) (ad am ar : Bool) :
    (∀ ch ∈ (build_device_plan current desired avd avm avr safety).plan.changes,
       ch.kind = ChangeKind.vlan_delete → ¬ ch.detailInt "vlan_id" = some 1) ∧
    ¬ (1 : Int) ∈ (plan_vlan_changes cur des ad am ar).1.delete := by
  constructor
  · intro ch hch hk
    rcases mem_build_device_plan_cases hch with ⟨vid, _, hc⟩ | ⟨vid, _, hu⟩ | ⟨pid, _, hp⟩ | hd
    · rcases vlanLoopCreate_shape hc with ⟨cfg, _, _, rfl⟩
      simp [vlanCreateChange] at hk
    · rcases vlanLoopUpdate_shape hu with ⟨cfg, entry, _, _, _, rfl⟩
      simp at hk
    · rcases portLoopChange_shape hp with ⟨cfg_p, cur_p, _, _, _, rfl⟩
      simp at hk
    · rcases deleteSection_shape hd with ⟨_, vid, h1, _, _, rfl⟩
      intro habs
      have : vid = 1 := by
        simpa [Change.detailInt, Change.detail] using habs
      exact h1 this
  · intro hmem
    unfold plan_vlan_changes at hmem
    dsimp only at hmem
    split at hmem
    · rcases List.mem_filterMap.mp hmem with ⟨vid, _, hsome⟩
      by_cases h1 : vid = (1 : Int)
      · rw [if_pos h1] at hsome; simp at hsome
      · rw [if_neg h1] at hsome
        split at hsome <;> simp_all
    · split at hmem <;> simp at hmem

/-- Witness for claim C1: with the desired config empty and deletes enabled,
the plan at `c1cur` really emits a delete (for VLAN 2), and the claim applies
to it; the `plan_vlan_changes` half is applied at `c1curE`. -/
theorem claim_C1_witness :
    c1del ∈ (build_device_plan c1cur {} true true true none).plan.changes ∧
    ¬ c1del.detailInt "vlan_id" = some 1 ∧
    ¬ (1 : Int) ∈ (plan_vlan_changes c1curE [] true false true).1.delete := by
  refine ⟨by decide,
    (claim_C1_vlan1_immutable c1cur {} true true true none c1curE [] true false true).1
      c1del (by decide) rfl,
    (claim_C1_vlan1_immutable c1cur {} true true true none c1curE [] true false true).2⟩

/-! ## Claim C2: plan ordering -/

theorem vlanLoopCreate_kind {current desired : DeviceConfig} {vid : Int} {ch : Change}
    (h : vlanLoopCreate current desired vid = some ch) : ch.kind = ChangeKind.vlan_create := by
  rcases vlanLoopCreate_shape h with ⟨cfg, _, _, rfl⟩; rfl

theorem vlanLoopCreate_vid {current desired : DeviceConfig} {vid : Int} {ch : Change}
    (h : vlanLoopCreate current desired vid = some ch) :
    ch.detailInt "vlan_id" = some vid := by
  rcases vlanLoopCreate_shape h with ⟨cfg, _, _, rfl⟩; rfl

theorem vlanLoopUpdate_kind {r m : Bool} {current desired : DeviceConfig} {vid : Int} {ch : Change}
    (h : vlanLoopUpdate r m current desired vid = some ch) : ch.kind = ChangeKind.vlan_update := by
  rcases vlanLoopUpdate_shape h with ⟨cfg, entry, _, _, _, rfl⟩; rfl

theorem vlanLoopUpdate_vid {r m : Bool} {current desired : DeviceConfig} {vid : Int} {ch : Change}
    (h : vlanLoopUpdate r m current desired vid = some ch) :
    ch.detailInt "vlan_id" = some vid := by
  rcases vlanLoopUpdate_shape h with ⟨cfg, entry, _, _, _, rfl⟩; rfl

theorem portLoopChange_kind {s : Option Int} {current desired : DeviceConfig} {pid : Int} {ch : Change}
    (h : (portLoopChange s current desired pid).1 = some ch) : ch.kind = ChangeKind.port_update := by
  rcases portLoopChange_shape h with ⟨a, b, _, _, _, rfl⟩; rfl

theorem portLoopChange_pid {s : Option Int} {current desired : DeviceConfig} {pid : Int} {ch : Change}
    (h : (portLoopChange s current desired pid).1 = some ch) :
    ch.detailInt "port_id" = some pid := by
  rcases portLoopChange_shape h with ⟨a, b, _, _, _, rfl⟩; rfl

theorem deleteSection_kind {avd : Bool} {current desired : DeviceConfig} {ch : Change}
    (h : ch ∈ (deleteSection avd current desired).1) : ch.kind = ChangeKind.vlan_delete := by
  rcases deleteSection_shape h with ⟨_, vid, _, _, _, rfl⟩; rfl

theorem deleteChange_vid (v : Int) :
    ({ kind := ChangeKind.vlan_delete, key := "vlan:" ++ pyStr v,
       details := [("vlan_id", DVal.int v)] } : Change).detailInt "vlan_id" = some v := rfl

theorem pairwise_rank_const {l : List Change} {k : Nat}
    (h : ∀ a ∈ l, Change.kindRank a = k) :
    l.Pairwise (fun a b => Change.kindRank a ≤ Change.kindRank b) := by
  induction l with
  | nil => exact List.Pairwise.nil
  | cons x xs ih =>
    refine List.Pairwise.cons ?_ (ih ?_)
    · intro b hb
      rw [h x (List.mem_cons_self x xs), h b (List.mem_cons_of_mem x hb)]
    · intro a ha
      exact h a (List.mem_cons_of_mem x ha)

section PlanOrdering

variable (current desired : DeviceConfig) (avd avm avr : Bool) (safety : Option Int)

theorem creates_kinds :
    ∀ ch ∈ (dictKeys desired.vlans).filterMap (vlanLoopCreate current desired),
      ch.kind = ChangeKind.vlan_create := by
  intro ch hch
  rcases List.mem_filterMap.mp hch with ⟨vid, _, h⟩
  exact vlanLoopCreate_kind h

theorem updates_kinds :
    ∀ ch ∈ (dictKeys desired.vlans).filterMap (vlanLoopUpdate avr avm current desired),
      ch.kind = ChangeKind.vlan_update := by
  intro ch hch
  rcases List.mem_filterMap.mp hch with ⟨vid, _, h⟩
  exact vlanLoopUpdate_kind h

theorem ports_kinds :
    ∀ ch ∈ ((dictKeys desired.ports).map (portLoopChange safety current desired)).filterMap Prod.fst,
      ch.kind = ChangeKind.port_update := by
  intro ch hch
  rw [List.filterMap_map] at hch
  rcases List.mem_filterMap.mp hch with ⟨pid, _, h⟩
  exact portLoopChange_kind h

theorem creates_vids_ascending :
    (((dictKeys desired.vlans).filterMap (vlanLoopCreate current desired)).filterMap
      (fun c => c.detailInt "vlan_id")).Pairwise (· < ·) := by
  rw [List.filterMap_filterMap, List.pairwise_filterMap]
  refine (dictKeys_pairwise_lt _).imp ?_
  intro a a' hlt b hb b' hb'
  rw [Option.mem_def, Option.bind_eq_some] at hb hb'
  rcases hb with ⟨ch, hch, hd⟩
  rcases hb' with ⟨ch', hch', hd'⟩
  rw [vlanLoopCreate_vid hch] at hd
  rw [vlanLoopCreate_vid hch'] at hd'
  rw [← Option.some_inj.mp hd, ← Option.some_inj.mp hd']
  exact hlt

theorem updates_vids_ascending :
    (((dictKeys desired.vlans).filterMap (vlanLoopUpdate avr avm current desired)).filterMap
      (fun c => c.detailInt "vlan_id")).Pairwise (· < ·) := by
  rw [List.filterMap_filterMap, List.pairwise_filterMap]
  refine (dictKeys_pairwise_lt _).imp ?_
  intro a a' hlt b hb b' hb'
  rw [Option.mem_def, Option.bind_eq_some] at hb hb'
  rcases hb with ⟨ch, hch, hd⟩
  rcases hb' with ⟨ch', hch', hd'⟩
  rw [vlanLoopUpdate_vid hch] at hd
  rw [vlanLoopUpdate_vid hch'] at hd'
  rw [← Option.some_inj.mp hd, ← Option.some_inj.mp hd']
  exact hlt

theorem ports_pids_ascending :
    ((((dictKeys desired.ports).map (portLoopChange safety current desired)).filterMap
        Prod.fst).filterMap (fun c => c.detailInt "port_id")).Pairwise (· < ·) := by
  rw [List.filterMap_map, List.filterMap_filterMap, List.pairwise_filterMap]
  refine (dictKeys_pairwise_lt _).imp ?_
  intro a a' hlt b hb b' hb'
  rw [Option.mem_def, Option.bind_eq_some] at hb hb'
  rcases hb with ⟨ch, hch, hd⟩
  rcases hb' with ⟨ch', hch', hd'⟩
  rw [portLoopChange_pid hch] at hd
  rw [portLoopChange_pid hch'] at hd'
  rw [← Option.some_inj.mp hd, ← Option.some_inj.mp hd']
  exact hlt

theorem deletes_vids_descending :
    ((deleteSection avd current desired).1.filterMap
      (fun c => c.detailInt "vlan_id")).Pairwise (fun a b => b < a) := by
  cases avd with
  | false => rw [deleteSection_false]; exact List.Pairwise.nil
  | true =>
    have hdef : (deleteSection true current desired).1 =
        ((dictKeys current.vlans).reverse).filterMap (fun vid =>
          if vid = 1 then none
          else if alist.hasKey desired.vlans vid then none
          else some { kind := ChangeKind.vlan_delete,
                      key := "vlan:" ++ pyStr vid,
                      details := [("vlan_id", DVal.int vid)] }) := by
      unfold deleteSection
      rw [if_pos rfl]
    rw [hdef, List.filterMap_filterMap, List.pairwise_filterMap]
    have hrev : ((dictKeys current.vlans).reverse).Pairwise (fun a b => b < a) :=
      List.pairwise_reverse.mpr (dictKeys_pairwise_lt _)
    refine hrev.imp ?_
    intro a a' hlt b hb b' hb'
    rw [Option.mem_def, Option.bind_eq_some] at hb hb'
    rcases hb with ⟨ch, hch, hd⟩
    rcases hb' with ⟨ch', hch', hd'⟩
    have hba : b = a := by
      split at hch
      · simp at hch
      · split at hch
        · simp at hch
        · rw [← Option.some_inj.mp hch, deleteChange_vid] at hd
          exact (Option.some_inj.mp hd).symm
    have hba' : b' = a' := by
      split at hch'
      · simp at hch'
      · split at hch'
        · simp at hch'
        · rw [← Option.some_inj.mp hch', deleteChange_vid] at hd'
          exact (Option.some_inj.mp hd').symm
    rw [hba, hba']
    exact hlt

theorem plan_rank_pairwise :
    ((build_device_plan current desired avd avm avr safety).plan.changes.map
      Change.kindRank).Pairwise (· ≤ ·) := by
  rw [List.pairwise_map, build_device_plan_changes]
  have hA := creates_kinds current desired
  have hB := updates_kinds current desired avm avr
  have hC := ports_kinds current desired safety
  have hD : ∀ ch ∈ (deleteSection avd current desired).1, ch.kind = ChangeKind.vlan_delete :=
    fun ch h => deleteSection_kind h
  have rA : ∀ a ∈ (dictKeys desired.vlans).filterMap (vlanLoopCreate current desired),
      Change.kindRank a = 0 := fun a ha => by unfold Change.kindRank; rw [hA a ha]
  have rB : ∀ a ∈ (dictKeys desired.vlans).filterMap (vlanLoopUpdate avr avm current desired),
      Change.kindRank a = 1 := fun a ha => by unfold Change.kindRank; rw [hB a ha]
  have rC : ∀ a ∈ ((dictKeys desired.ports).map
        (portLoopChange safety current desired)).filterMap Prod.fst,
      Change.kindRank a = 2 := fun a ha => by unfold Change.kindRank; rw [hC a ha]
  have rD : ∀ a ∈ (deleteSection avd current desired).1,
      Change.kindRank a = 3 := fun a ha => by unfold Change.kindRank; rw [hD a ha]
  rw [List.pairwise_append]
  refine ⟨?_, pairwise_rank_const rD, ?_⟩
  · rw [List.pairwise_append]
    refine ⟨?_, pairwise_rank_const rC, ?_⟩
    · rw [List.pairwise_append]
      refine ⟨pairwise_rank_const rA, pairwise_rank_const rB, ?_⟩
      · intro a ha b hb
        rw [rA a ha, rB b hb]; omega
    · intro a ha b hb
      rcases List.mem_append.mp ha with h | h
      · rw [rA a h, rC b hb]; omega
      · rw [rB a h, rC b hb]; omega
  · intro a ha b hb
    rcases List.mem_append.mp ha with h | h
    · rcases List.mem_append.mp h with h2 | h2
      · rw [rA a h2, rD b hb]; omega
      · rw [rB a h2, rD b hb]; omega
    · rw [rC a h, rD b hb]; omega

theorem plan_filter_create :
    (build_device_plan current desired avd avm avr safety).plan.changes.filter
        (fun c => c.kind == ChangeKind.vlan_create) =
      (dictKeys desired.vlans).filterMap (vlanLoopCreate current desired) := by
  rw [build_device_plan_changes]
  rw [List.filter_append, List.filter_append, List.filter_append]
  rw [List.filter_eq_self.mpr (fun a ha => by
        rw [beq_iff_eq]; exact creates_kinds current desired a ha)]
  rw [List.filter_eq_nil_iff.mpr (fun a ha => by
        rw [beq_iff_eq, updates_kinds current desired avm avr a ha]; simp)]
  rw [List.filter_eq_nil_iff.mpr (fun a ha => by
        rw [beq_iff_eq, ports_kinds current desired safety a ha]; simp)]
  rw [List.filter_eq_nil_iff.mpr (fun a ha => by
        rw [beq_iff_eq, deleteSection_kind ha]; simp)]
  simp

theorem plan_filter_update :
    (build_device_plan current desired avd avm avr safety).plan.changes.filter
        (fun c => c.kind == ChangeKind.vlan_update) =
      (dictKeys desired.vlans).filterMap (vlanLoopUpdate avr avm current desired) := by
  rw [build_device_plan_changes]
  rw [List.filter_append, List.filter_append, List.filter_append]
  rw [List.filter_eq_nil_iff.mpr (fun a ha => by
        rw [beq_iff_eq, creates_kinds current desired a ha]; simp)]
  rw [List.filter_eq_self.mpr (fun a ha => by
        rw [beq_iff_eq]; exact updates_kinds current desired avm avr a ha)]
  rw [List.filter_eq_nil_iff.mpr (fun a ha => by
        rw [beq_iff_eq, ports_kinds current desired safety a ha]; simp)]
  rw [List.filter_eq_nil_iff.mpr (fun a ha => by
        rw [beq_iff_eq, deleteSection_kind ha]; simp)]
  simp

theorem plan_filter_port :
    (build_device_plan current desired avd avm avr safety).plan.changes.filter
        (fun c => c.kind == ChangeKind.port_update) =
      ((dictKeys desired.ports).map (portLoopChange safety current desired)).filterMap
        Prod.fst := by
  rw [build_device_plan_changes]
  rw [List.filter_append, List.filter_append, List.filter_append]
  rw [List.filter_eq_nil_iff.mpr (fun a ha => by
        rw [beq_iff_eq, creates_kinds current desired a ha]; simp)]
  rw [List.filter_eq_nil_iff.mpr (fun a ha => by
        rw [beq_iff_eq, updates_kinds current desired avm avr a ha]; simp)]
  rw [List.filter_eq_self.mpr (fun a ha => by
        rw [beq_iff_eq]; exact ports_kinds current desired safety a ha)]
  rw [List.filter_eq_nil_iff.mpr (fun a ha => by
        rw [beq_iff_eq, deleteSection_kind ha]; simp)]
  simp

theorem plan_filter_delete :
    (build_device_plan current desired avd avm avr safety).plan.changes.filter
        (fun c => c.kind == ChangeKind.vlan_delete) =
      (deleteSection avd current desired).1 := by
  rw [build_device_plan_changes]
  rw [List.filter_append, List.filter_append, List.filter_append]
  rw [List.filter_eq_nil_iff.mpr (fun a ha => by
        rw [beq_iff_eq, creates_kinds current desired a ha]; simp)]
  rw [List.filter_eq_nil_iff.mpr (fun a ha => by
        rw [beq_iff_eq, updates_kinds current desired avm avr a ha]; simp)]
  rw [List.filter_eq_nil_iff.mpr (fun a ha => by
        rw [beq_iff_eq, ports_kinds current desired safety a ha]; simp)]
  rw [List.filter_eq_self.mpr (fun a ha => by
        rw [beq_iff_eq]; exact deleteSection_kind ha)]
  simp

end PlanOrdering

/-- Claim C2: for every pair of current and desired `DeviceConfig`, the
`changes` list of the plan returned by `build_device_plan` is ordered as
all `vlan_create` (ascending VLAN id), then all `vlan_update` (ascending
VLAN id), then all `port_update` (ascending port id), then all
`vlan_delete` (strictly descending VLAN id); in particular every
`vlan_create`/`vlan_update` index precedes every `vlan_delete` index. -/
theorem claim_C2_plan_ordering (current desired : DeviceConfig) (avd avm avr : Bool)
    (safety : Option Int) :
    ((build_device_plan current desired avd avm avr safety).plan.changes.map
      Change.kindRank).Pairwise (· ≤ ·) ∧
    (((build_device_plan current desired avd avm avr safety).plan.changes.filter
        (fun c => c.kind == ChangeKind.vlan_create)).filterMap
        (fun c => c.detailInt "vlan_id")).Pairwise (· < ·) ∧
    (((build_device_plan current desired avd avm avr safety).plan.changes.filter
        (fun c => c.kind == ChangeKind.vlan_update)).filterMap
        (fun c => c.detailInt "vlan_id")).Pairwise (· < ·) ∧
    (((build_device_plan current desired avd avm avr safety).plan.changes.filter
        (fun c => c.kind == ChangeKind.port_update)).filterMap
        (fun c => c.detailInt "port_id")).Pairwise (· < ·) ∧
    (((build_device_plan current desired avd avm avr safety).plan.changes.filter
        (fun c => c.kind == ChangeKind.vlan_delete)).filterMap
        (fun c => c.detailInt "vlan_id")).Pairwise (fun a b => b < a) ∧
    (∀ i j : Fin (build_device_plan current desired avd avm avr safety).plan.changes.length,
       (((build_device_plan current desired avd avm avr safety).plan.changes.get i).kind =
            ChangeKind.vlan_create ∨
        ((build_device_plan current desired avd avm avr safety).plan.changes.get i).kind =
            ChangeKind.vlan_update) →
       ((build_device_plan current desired avd avm avr safety).plan.changes.get j).kind =
            ChangeKind.vlan_delete →
       (i : Nat) < (j : Nat)) := by
  refine ⟨plan_rank_pairwise current desired avd avm avr safety, ?_, ?_, ?_, ?_, ?_⟩
  · rw [plan_filter_create current desired avd avm avr safety]
    exact creates_vids_ascending current desired
  · rw [plan_filter_update current desired avd avm avr safety]
    exact updates_vids_ascending current desired avm avr
  · rw [plan_filter_port current desired avd avm avr safety]
    exact ports_pids_ascending current desired safety
  · rw [plan_filter_delete current desired avd avm avr safety]
    exact deletes_vids_descending current desired avd
  · intro i j hi hj
    have hrank := plan_rank_pairwise current desired avd avm avr safety
    rw [List.pairwise_map, List.pairwise_iff_get] at hrank
    by_contra hij
    push_neg at hij
    rcases Nat.lt_or_ge (j : Nat) (i : Nat) with hlt | hge
    · have hr := hrank j i hlt
      unfold Change.kindRank at hr
      rw [hj] at hr
      rcases hi with hk | hk <;> rw [hk] at hr <;> simp at hr
    · have hij' : (i : Nat) = (j : Nat) := le_antisymm hge hij
      have : i = j := Fin.ext hij'
      subst this
      rcases hi with hk | hk <;> rw [hk] at hj <;> exact ChangeKind.noConfusion hj

/-- Witness for claim C2: at `c1cur` (VLANs 1, 2) versus `c2des` (VLAN 3)
with deletes enabled, the plan is `[create vlan 3, delete vlan 2]`; the
claim's index conjunct applies and places the create strictly before the
delete. -/
theorem claim_C2_witness :
    (build_device_plan c1cur c2des true true true none).plan.changes.length = 2 ∧
    (0 : Nat) < (1 : Nat) := by
  refine ⟨by decide, ?_⟩
  have h := (claim_C2_plan_ordering c1cur c2des true true true none).2.2.2.2.2
    ⟨0, by decide⟩ ⟨1, by decide⟩ (Or.inl (by decide)) (by decide)
  exact h

/-! ## Claim C3: safety-port protection -/

theorem portAdminDiff_safety_none (pid : Int) (cfg cur : PortConfig)
    (h : cfg.admin_up = some false) :
    (portAdminDiff (some pid) pid cfg cur).1 = [] := by
  unfold portAdminDiff
  rw [h]
  dsimp only
  split
  · rw [if_pos ⟨by simp, rfl⟩]
  · rfl

theorem portAdminDiff_safety_warns (pid : Int) (cfg cur : PortConfig)
    (h : cfg.admin_up = some false) (hne : ¬ cur.admin_up = some false) :
    (portAdminDiff (some pid) pid cfg cur).2 =
      ["Refusing to disable safety port " ++ pyStr pid ++ "; skipping admin_up change."] := by
  unfold portAdminDiff
  rw [h]
  dsimp only
  split
  · rw [if_pos ⟨by simp, rfl⟩]
  · next hcond =>
    exact absurd (not_not.mp hcond).symm hne

theorem portSpeedDiff_pos {cfg cur : PortConfig} {sd : String}
    (hsd : cfg.speed_duplex = some sd) (hne : ¬ some sd = cur.speed_duplex) :
    portSpeedDiff cfg cur = [("speed_duplex", DVal.diffOS cur.speed_duplex sd)] := by
  unfold portSpeedDiff
  rw [hsd]
  dsimp only
  rw [if_pos hne]

theorem portFlowDiff_pos {cfg cur : PortConfig} {fc : Bool}
    (hfc : cfg.flow_control = some fc) (hne : ¬ some fc = cur.flow_control) :
    portFlowDiff cfg cur = [("flow_control", DVal.diffOB cur.flow_control fc)] := by
  unfold portFlowDiff
  rw [hfc]
  dsimp only
  rw [if_pos hne]

theorem portLoopChange_pos {s : Option Int} {current desired : DeviceConfig} {pid : Int}
    {cfg_p cur_p : PortConfig}
    (hdes : alist.lookup desired.ports pid = some cfg_p)
    (hcur : alist.lookup current.ports pid = some cur_p)
    (hfd : ¬ (portFieldDiffs s pid cfg_p cur_p).1 = []) :
    (portLoopChange s current desired pid).1 =
      some { kind := ChangeKind.port_update, key := "port:" ++ pyStr pid,
             details := ("port_id", DVal.int pid) :: (portFieldDiffs s pid cfg_p cur_p).1 } := by
  unfold portLoopChange
  rw [hdes, hcur]
  dsimp only
  rw [if_neg hfd]

theorem portLoopChange_snd {s : Option Int} {current desired : DeviceConfig} {pid : Int}
    {cfg_p cur_p : PortConfig}
    (hdes : alist.lookup desired.ports pid = some cfg_p)
    (hcur : alist.lookup current.ports pid = some cur_p) :
    (portLoopChange s current desired pid).2 = (portAdminDiff s pid cfg_p cur_p).2 := by
  unfold portLoopChange
  rw [hdes, hcur]
  dsimp only
  split <;> rfl

theorem port_change_mem_plan {safety : Option Int} {current desired : DeviceConfig}
    {pid : Int} {ch : Change} {avd avm avr : Bool}
    (h : (portLoopChange safety current desired pid).1 = some ch)
    (hk : pid ∈ dictKeys desired.ports) :
    ch ∈ (build_device_plan current desired avd avm avr safety).plan.changes := by
  rw [build_device_plan_changes]
  refine List.mem_append.mpr (Or.inl (List.mem_append.mpr (Or.inr ?_)))
  rw [List.filterMap_map]
  exact List.mem_filterMap.mpr ⟨pid, hk, h⟩

/-- Claim C3, amended: whenever the desired `PortConfig` for
`safety_port_id` sets `admin_up` explicitly to `False`, the plan contains
no port change carrying an `admin_up` field diff for that port, while
`speed_duplex` and `flow_control` diffs for the same port are still
emitted, and the suppression surfaces as a warning (the embedding is
total, so no error is ever raised).  The amendment drops the claim's
"or via `state=absent`" route: `build_device_plan` never reads
`PortConfig.state`, as `claim_C3_counterexample` shows. -/
theorem claim_C3_amended_safety_port (current desired : DeviceConfig) (avd avm avr : Bool)
    (pid : Int) (cfg_p cur_p : PortConfig)
    (hdes : alist.lookup desired.ports pid = some cfg_p)
    (hcur : alist.lookup current.ports pid = some cur_p)
    (hadmin : cfg_p.admin_up = some false) :
    (∀ ch ∈ (build_device_plan current desired avd avm avr (some pid)).plan.changes,
       ch.detailInt "port_id" = some pid → ch.detail "admin_up" = none) ∧
    (∀ sd, cfg_p.speed_duplex = some sd → ¬ some sd = cur_p.speed_duplex →
       ∃ ch ∈ (build_device_plan current desired avd avm avr (some pid)).plan.changes,
         ch.kind = ChangeKind.port_update ∧ ch.detailInt "port_id" = some pid ∧
         ¬ ch.detail "speed_duplex" = none) ∧
    (∀ fc, cfg_p.flow_control = some fc → ¬ some fc = cur_p.flow_control →
       ∃ ch ∈ (build_device_plan current desired avd avm avr (some pid)).plan.changes,
         ch.kind = ChangeKind.port_update ∧ ch.detailInt "port_id" = some pid ∧
         ¬ ch.detail "flow_control" = none) ∧
    (¬ cur_p.admin_up = some false →
       ("Refusing to disable safety port " ++ pyStr pid ++ "; skipping admin_up change.")
         ∈ (build_device_plan current desired avd avm avr (some pid)).warnings) := by
  have hk : pid ∈ dictKeys desired.ports :=
    dictKeys_mem.mpr (alist.lookup_mem_keys hdes)
  refine ⟨?_, ?_, ?_, ?_⟩
  · intro ch hch hpid
    rcases mem_build_device_plan_cases hch with ⟨vid, _, hc⟩ | ⟨vid, _, hu⟩ | ⟨pid', _, hp⟩ | hd
    · rcases vlanLoopCreate_shape hc with ⟨cfg, _, _, rfl⟩
      simp [vlanCreateChange, Change.detailInt, Change.detail, List.find?] at hpid
    · rcases vlanLoopUpdate_shape hu with ⟨cfg, entry, _, _, _, rfl⟩
      rw [Change.detailInt_eq_none_of_names ?_] at hpid
      · exact Option.noConfusion hpid
      · intro e he
        rcases List.mem_cons.mp he with rfl | he2
        · exact (by decide : ¬ ("vlan_id" : String) = "port_id")
        · rcases vlanFieldDiffs_names avr avm cfg entry e he2 with h | h | h <;>
            rw [h] <;> decide
    · rcases portLoopChange_shape hp with ⟨cfg2, cur2, hdes2, hcur2, hfd2, rfl⟩
      have hpid' : pid' = pid := by
        have := portLoopChange_pid hp
        rw [this] at hpid
        exact Option.some_inj.mp hpid
      subst hpid'
      have hcfg : cfg2 = cfg_p := Option.some_inj.mp (hdes2.symm.trans hdes)
      subst hcfg
      refine Change.detail_eq_none_of_names ?_
      intro e he
      rcases List.mem_cons.mp he with rfl | he2
      · exact (by decide : ¬ ("port_id" : String) = "admin_up")
      · unfold portFieldDiffs at he2
        rw [portAdminDiff_safety_none _ _ _ hadmin] at he2
        rw [List.nil_append] at he2
        rcases List.mem_append.mp he2 with h | h
        · rw [portSpeedDiff_names _ _ e h]; decide
        · rw [portFlowDiff_names _ _ e h]; decide
    · rcases deleteSection_shape hd with ⟨_, vid, _, _, _, rfl⟩
      simp [Change.detailInt, Change.detail, List.find?] at hpid
  · intro sd hsd hne
    have hspeed := portSpeedDiff_pos hsd hne
    have hfd : ¬ (portFieldDiffs (some pid) pid cfg_p cur_p).1 = [] := by
      unfold portFieldDiffs
      rw [portAdminDiff_safety_none pid cfg_p cur_p hadmin, hspeed]
      simp
    refine ⟨_, port_change_mem_plan (portLoopChange_pos hdes hcur hfd) hk, rfl, rfl, ?_⟩
    intro habs
    unfold Change.detail at habs
    rw [Option.map_eq_none', List.find?_eq_none] at habs
    refine habs ("speed_duplex", DVal.diffOS cur_p.speed_duplex sd) ?_ (by rfl)
    refine List.mem_cons_of_mem _ ?_
    unfold portFieldDiffs
    rw [portAdminDiff_safety_none pid cfg_p cur_p hadmin, hspeed]
    simp
  · intro fc hfc hne
    have hflow := portFlowDiff_pos hfc hne
    have hfd : ¬ (portFieldDiffs (some pid) pid cfg_p cur_p).1 = [] := by
      unfold portFieldDiffs
      rw [portAdminDiff_safety_none pid cfg_p cur_p hadmin, hflow]
      simp
    refine ⟨_, port_change_mem_plan (portLoopChange_pos hdes hcur hfd) hk, rfl, rfl, ?_⟩
    intro habs
    unfold Change.detail at habs
    rw [Option.map_eq_none', List.find?_eq_none] at habs
    refine habs ("flow_control", DVal.diffOB cur_p.flow_control fc) ?_ (by rfl)
    refine List.mem_cons_of_mem _ ?_
    unfold portFieldDiffs
    rw [portAdminDiff_safety_none pid cfg_p cur_p hadmin, hflow]
    simp
  · intro hne
    rw [build_device_plan_warnings]
    refine List.mem_append.mpr (Or.inl ?_)
    rw [List.mem_flatten]
    refine ⟨(portLoopChange (some pid) current desired pid).2, ?_, ?_⟩
    · rw [List.map_map]
      exact List.mem_map.mpr ⟨pid, hk, rfl⟩
    · rw [portLoopChange_snd hdes hcur, portAdminDiff_safety_warns pid cfg_p cur_p hadmin hne]
      exact List.mem_singleton.mpr rfl

/-- Counterexample to claim C3 as stated: at `c3cur`/`c3des` with
`safety_port_id=6`, the desired port 6 would set `admin_up=False` via
`state=absent` under the spec's resolution (`specResolvedAdminUp`), yet the
plan does contain a `port_update` change carrying an `admin_up` field diff
for port 6 — because `build_device_plan` ignores `PortConfig.state` and
obeys the explicit `admin_up=True`. -/
theorem claim_C3_counterexample :
    specResolvedAdminUp { port_id := 6, admin_up := some true, state := PState.absent } =
      some false ∧
    ∃ ch ∈ (build_device_plan c3cur c3des false true true (some 6)).plan.changes,
      ch.kind = ChangeKind.port_update ∧ ch.detailInt "port_id" = some 6 ∧
      ¬ ch.detail "admin_up" = none := by decide

/-- Witness for the amended claim C3 at `c3wcur`/`c3wdes` with safety port
6: the emitted change for port 6 carries no `admin_up` diff while its
speed diff survives, and the warning is emitted. -/
theorem claim_C3_witness :
    c3wch ∈ (build_device_plan c3wcur c3wdes false true true (some 6)).plan.changes ∧
    c3wch.detail "admin_up" = none ∧
    "Refusing to disable safety port 6; skipping admin_up change."
      ∈ (build_device_plan c3wcur c3wdes false true true (some 6)).warnings := by
  refine ⟨by decide,
    (claim_C3_amended_safety_port c3wcur c3wdes false true true 6 _ _ rfl rfl rfl).1
      c3wch (by decide) (by decide),
    (claim_C3_amended_safety_port c3wcur c3wdes false true true 6 _ _ rfl rfl rfl).2.2.2
      (by decide)⟩

/-! ## Claims C4 and C5: the unread `state` field -/

/-- Claim C4 evaluated at its failing input: the desired port 1 is marked
`state=absent` and the current port is up, so the claim (and the
`PortConfig`/driver docstrings) require a `port_update` with an `admin_up`
`True→False` diff — but `build_device_plan` never reads `state` and
returns an empty plan. -/
theorem claim_C4_state_absent_ignored :
    (alist.lookup c4des.ports 1).map PortConfig.state = some PState.absent ∧
    (alist.lookup c4des.ports 1).map PortConfig.admin_up = some none ∧
    (alist.lookup c4cur.ports 1).map PortConfig.admin_up = some (some true) ∧
    (build_device_plan c4cur c4des false true true none).plan.changes = [] := by decide

/-- Claim C5 evaluated at its failing input: VLAN 10 exists in `current`
and is listed in `desired` (the only way a `state=absent` entry could be
rendered, since `VlanConfig` has no `state` field); with deletes enabled
or disabled, `build_device_plan` emits no `vlan_delete` at all — a VLAN
listed in `desired` is never deleted, contradicting the claimed
`state=absent` → `vlan_delete` behaviour that the driver docstring
documents. -/
theorem claim_C5_vlan_absent_never_deletes :
    alist.hasKey c5cur.vlans 10 = true ∧
    ((build_device_plan c5cur c5des true true true none).plan.changes.filter
       (fun c => c.kind == ChangeKind.vlan_delete)) = [] ∧
    ((build_device_plan c5cur c5des false true true none).plan.changes.filter
       (fun c => c.kind == ChangeKind.vlan_delete)) = [] := by decide

/-! ## Claim C6: normalization idempotence -/

theorem sortInt_eq_of_sorted {l : List Int} (h : l.Sorted (· ≤ ·)) : sortInt l = l :=
  h.insertionSort_eq

theorem sortedSet_eq_self {l : List Int} (hs : l.Sorted (· ≤ ·)) (hn : l.Nodup) :
    sortedSet l = l := by
  unfold sortedSet
  rw [hn.dedup]
  exact sortInt_eq_of_sorted hs

theorem sortedSet_sorted (l : List Int) : (sortedSet l).Sorted (· ≤ ·) :=
  sortInt_sorted _

theorem sortedSet_idem (l : List Int) : sortedSet (sortedSet l) = sortedSet l :=
  sortedSet_eq_self (sortedSet_sorted l) (sortedSet_nodup l)

theorem normalize_vlan_config_idem (cfg : VlanConfig) :
    normalize_vlan_config (normalize_vlan_config cfg) = normalize_vlan_config cfg := by
  unfold normalize_vlan_config
  dsimp only
  rw [sortedSet_idem cfg.untagged_ports]
  have hT : sortedSet ((sortedSet cfg.tagged_ports).filter
      (fun p => ¬ p ∈ sortedSet cfg.untagged_ports)) =
      (sortedSet cfg.tagged_ports).filter
        (fun p => ¬ p ∈ sortedSet cfg.untagged_ports) := by
    refine sortedSet_eq_self ?_ ?_
    · exact List.Pairwise.sublist (List.filter_sublist _) (sortedSet_sorted cfg.tagged_ports)
    · exact (sortedSet_nodup cfg.tagged_ports).filter _
  rw [hT]
  rw [List.filter_eq_self.mpr (fun a ha => (List.mem_filter.mp ha).2)]

theorem aliasGet_canonical {k c : String} (h : aliasGet k = some c) :
    c ∈ SPEED_DUPLEX_CANONICAL := by
  unfold aliasGet at h
  rcases Option.map_eq_some'.mp h with ⟨p, hp, hv⟩
  have hmem : p ∈ SPEED_DUPLEX_ALIASES := List.mem_of_find?_eq_some hp
  have hall : ∀ q ∈ SPEED_DUPLEX_ALIASES, q.2 ∈ SPEED_DUPLEX_CANONICAL := by decide
  rw [← hv]
  exact hall p hmem

theorem normalize_port_config_idem (cfg : PortConfig) :
    normalize_port_config (normalize_port_config cfg) = normalize_port_config cfg := by
  rcases h : cfg.speed_duplex with _ | sd
  · simp [normalize_port_config, h]
  · by_cases hc : sd ∈ SPEED_DUPLEX_CANONICAL
    · simp [normalize_port_config, h, hc]
    · rcases ha : aliasGet sd.toLower with _ | c
      · simp [normalize_port_config, h, hc, ha]
      · have hcc : c ∈ SPEED_DUPLEX_CANONICAL := aliasGet_canonical ha
        simp [normalize_port_config, h, hc, ha, hcc]

instance instIsTotalKeyLe {α : Type} : IsTotal (Int × α) (fun p q => p.1 ≤ q.1) :=
  ⟨fun a b => le_total a.1 b.1⟩

instance instIsTransKeyLe {α : Type} : IsTrans (Int × α) (fun p q => p.1 ≤ q.1) :=
  ⟨fun _ _ _ hab hbc => le_trans hab hbc⟩

theorem sortItems_sorted {α : Type} (m : List (Int × α)) :
    (sortItems m).Sorted (fun p q => p.1 ≤ q.1) :=
  List.sorted_insertionSort _ m

theorem sortItems_eq_of_sorted {α : Type} {m : List (Int × α)}
    (h : m.Sorted (fun p q => p.1 ≤ q.1)) : sortItems m = m :=
  h.insertionSort_eq

theorem sortItems_map_eq {α β : Type} (m : List (Int × α)) (f : α → β)
    (hm : m.Sorted (fun p q => p.1 ≤ q.1)) :
    sortItems (m.map (fun p => (p.1, f p.2))) = m.map (fun p => (p.1, f p.2)) := by
  refine sortItems_eq_of_sorted ?_
  rw [List.Sorted, List.pairwise_map]
  exact hm

/-- Claim C6: `normalize_device_config` is idempotent — normalizing an
already-normalized `DeviceConfig` changes nothing: port lists stay
deduplicated, sorted and disjoint (untagged winning), every alias-resolved
`speed_duplex` token is itself canonical, and the key-sorted dicts stay
key-sorted. -/
theorem claim_C6_normalize_idempotent (cfg : DeviceConfig) :
    normalize_device_config (normalize_device_config cfg) = normalize_device_config cfg := by
  unfold normalize_device_config
  dsimp only
  rw [sortItems_map_eq (sortItems cfg.vlans) normalize_vlan_config (sortItems_sorted _)]
  rw [sortItems_map_eq (sortItems cfg.ports) normalize_port_config (sortItems_sorted _)]
  rw [List.map_map, List.map_map]
  congr 1
  · exact List.map_congr_left (fun p _ => by
      simp only [Function.comp]
      rw [normalize_vlan_config_idem])
  · exact List.map_congr_left (fun p _ => by
      simp only [Function.comp]
      rw [normalize_port_config_idem])

/-! ## Claims C7, C8, C10: the apply/verify orchestrator -/

/-- Claim C7: `apply_device_config` performs no write and no backup on its
non-mutating paths — an empty plan returns `changed=false` with an empty
`applied` list regardless of `check_mode`, and `check_mode=true` with a
non-empty plan returns `changed=true` with the rendered diff, an empty
`backup_file` and an empty `applied` list; in both cases the side-effect
trace is empty. -/
theorem claim_C7_no_writes_nonmutating (env : DriverEnv) (desired : DeviceConfig) (cm : Bool)
    (bbc : Option Bool) :
    ((applyPlan env desired).plan.changes = [] →
       apply_device_config env desired cm bbc =
         (Except.ok { changed := false, diff := render_diff (applyPlan env desired).plan,
                      backup_file := "", applied := [] }, [])) ∧
    (¬ (applyPlan env desired).plan.changes = [] →
       apply_device_config env desired true bbc =
         (Except.ok { changed := true, diff := render_diff (applyPlan env desired).plan,
                      backup_file := "", applied := [] }, [])) := by
  constructor
  · intro h
    unfold applyPlan at h
    unfold apply_device_config applyPlan
    dsimp only
    rw [if_pos h]
  · intro h
    unfold applyPlan at h
    unfold apply_device_config applyPlan
    dsimp only
    rw [if_neg h, if_pos rfl]

/-- Witness for claim C7: at the empty environment, an empty desired config
yields the no-op return, and the VLAN-10 desired config in check mode
yields `changed=true` with nothing applied; both with an empty effect
trace. -/
theorem claim_C7_witness :
    apply_device_config c7env {} false none =
      (Except.ok { changed := false, diff := render_diff (applyPlan c7env {}).plan,
                   backup_file := "", applied := [] }, []) ∧
    apply_device_config c7env c7des true none =
      (Except.ok { changed := true, diff := render_diff (applyPlan c7env c7des).plan,
                   backup_file := "", applied := [] }, []) :=
  ⟨(claim_C7_no_writes_nonmutating c7env {} false none).1 (by decide),
   (claim_C7_no_writes_nonmutating c7env c7des true none).2 (by decide)⟩

/-- Claim C8: after applying all planned changes, `apply_device_config`
re-reads and re-normalizes device state, recomputes the plan against the
same normalized desired config, raises `JTComVerificationError` carrying
the rendered residual diff exactly when that residual plan is non-empty,
and otherwise returns `changed=true` with the original pre-apply diff and
the applied change keys in apply order. -/
theorem claim_C8_post_apply_verification (env : DriverEnv) (desired : DeviceConfig)
    (bbc : Option Bool)
    (hne : ¬ (applyPlan env desired).plan.changes = []) :
    (¬ (residualPlan env desired).plan.changes = [] →
       apply_device_config env desired false bbc =
         (Except.error { remaining_diff := render_diff (residualPlan env desired).plan },
          (if bbc.getD env.backup_default then [Eff.backup] else []) ++
            ((applyPlan env desired).plan.changes.map
              (applyChangeEffects (normalize_device_config desired))).flatten)) ∧
    ((residualPlan env desired).plan.changes = [] →
       apply_device_config env desired false bbc =
         (Except.ok { changed := true,
                      diff := render_diff (applyPlan env desired).plan,
                      backup_file := if bbc.getD env.backup_default then env.backup_path else "",
                      applied := (applyPlan env desired).plan.changes.map Change.key },
          (if bbc.getD env.backup_default then [Eff.backup] else []) ++
            ((applyPlan env desired).plan.changes.map
              (applyChangeEffects (normalize_device_config desired))).flatten)) := by
  constructor
  · intro hres
    unfold applyPlan at hne
    unfold residualPlan at hres
    unfold apply_device_config applyPlan residualPlan
    dsimp only
    rw [if_neg hne, if_neg (by simp : ¬ false = true), if_pos hres]
  · intro hres
    unfold applyPlan at hne
    unfold residualPlan at hres
    unfold apply_device_config applyPlan
    dsimp only
    rw [if_neg hne, if_neg (by simp : ¬ false = true), if_neg (by simp [hres])]

/-- Witness for claim C8: with `c8envOk` (write took effect) the call
returns `changed=true` with the pre-apply diff and the applied keys; with
`c7env` (the post-apply read still shows an empty device, as if the write
was silently ignored) it returns the verification error carrying the
rendered residual diff. -/
theorem claim_C8_witness :
    apply_device_config c8envOk c8des false none =
      (Except.ok { changed := true,
                   diff := render_diff (applyPlan c8envOk c8des).plan,
                   backup_file := if (none : Option Bool).getD c8envOk.backup_default then
                       c8envOk.backup_path else "",
                   applied := (applyPlan c8envOk c8des).plan.changes.map Change.key },
       (if (none : Option Bool).getD c8envOk.backup_default then [Eff.backup] else []) ++
         ((applyPlan c8envOk c8des).plan.changes.map
           (applyChangeEffects (normalize_device_config c8des))).flatten) ∧
    apply_device_config c7env c8des false none =
      (Except.error { remaining_diff := render_diff (residualPlan c7env c8des).plan },
       (if (none : Option Bool).getD c7env.backup_default then [Eff.backup] else []) ++
         ((applyPlan c7env c8des).plan.changes.map
           (applyChangeEffects (normalize_device_config c8des))).flatten) :=
  ⟨(claim_C8_post_apply_verification c8envOk c8des none (by decide)).2 (by decide),
   (claim_C8_post_apply_verification c7env c8des none (by decide)).1 (by decide)⟩

/-! ## Claim C9: session POST retry -/

theorem session_post_expired_ok (path : String) (r1 r2 : PostResp)
    (h1 : r1.code = CODE_AUTH_EXPIRED) (h2 : r2.code = CODE_OK) :
    session_post path r1 r2 = { result := Except.ok r2, posts_sent := 2, relogins := 1 } := by
  unfold session_post
  rw [if_pos h1]
  dsimp only
  rw [if_neg (by simp [h2])]

theorem session_post_expired_err (path : String) (r1 r2 : PostResp)
    (h1 : r1.code = CODE_AUTH_EXPIRED) (h2 : ¬ r2.code = CODE_OK) :
    session_post path r1 r2 =
      { result := Except.error { code := r2.code, message := r2.data,
                                 endpoint := path, payload := r2 },
        posts_sent := 2, relogins := 1 } := by
  unfold session_post
  rw [if_pos h1]
  dsimp only
  rw [if_pos (by simp [h2])]

theorem session_post_first_ok (path : String) (r1 r2 : PostResp)
    (h1 : ¬ r1.code = CODE_AUTH_EXPIRED) (h2 : r1.code = CODE_OK) :
    session_post path r1 r2 = { result := Except.ok r1, posts_sent := 1, relogins := 0 } := by
  unfold session_post
  rw [if_neg h1]
  dsimp only
  rw [if_neg (by simp [h2])]

theorem session_post_first_err (path : String) (r1 r2 : PostResp)
    (h1 : ¬ r1.code = CODE_AUTH_EXPIRED) (h2 : ¬ r1.code = CODE_OK) :
    session_post path r1 r2 =
      { result := Except.error { code := r1.code, message := r1.data,
                                 endpoint := path, payload := r1 },
        posts_sent := 1, relogins := 0 } := by
  unfold session_post
  rw [if_neg h1]
  dsimp only
  rw [if_pos (by simp [h2])]

/-- Claim C9: on a `JTComSession.post` call, an auth-expired (code 11)
first response triggers exactly one re-login and one re-send; any non-zero
code in the retried response (code 11 included) and any non-zero non-11
code in the first response raise a `JTComSwitchError` carrying the code,
message (the payload's `data`), endpoint and raw payload; at most one
retry ever occurs, and a returned result always has code 0. -/
theorem claim_C9_post_retry_once (path : String) (r1 r2 : PostResp) :
    ((r1.code = CODE_AUTH_EXPIRED →
       (session_post path r1 r2).posts_sent = 2 ∧ (session_post path r1 r2).relogins = 1) ∧
     (¬ r1.code = CODE_AUTH_EXPIRED →
       (session_post path r1 r2).posts_sent = 1 ∧ (session_post path r1 r2).relogins = 0) ∧
     (session_post path r1 r2).posts_sent ≤ 2 ∧
     (session_post path r1 r2).relogins ≤ 1 ∧
     (r1.code = CODE_AUTH_EXPIRED → ¬ r2.code = CODE_OK →
       (session_post path r1 r2).result =
         Except.error { code := r2.code, message := r2.data, endpoint := path, payload := r2 }) ∧
     (¬ r1.code = CODE_AUTH_EXPIRED → ¬ r1.code = CODE_OK →
       (session_post path r1 r2).result =
         Except.error { code := r1.code, message := r1.data, endpoint := path, payload := r1 }) ∧
     (∀ r, (session_post path r1 r2).result = Except.ok r → r.code = CODE_OK)) := by
  by_cases h1 : r1.code = CODE_AUTH_EXPIRED
  · by_cases h2 : r2.code = CODE_OK
    · rw [session_post_expired_ok path r1 r2 h1 h2]
      refine ⟨fun _ => ⟨rfl, rfl⟩, fun hc => absurd h1 hc, by simp, by simp,
        fun _ hc => absurd h2 hc, fun hc => absurd h1 hc, fun r hr => ?_⟩
      cases hr
      exact h2
    · rw [session_post_expired_err path r1 r2 h1 h2]
      refine ⟨fun _ => ⟨rfl, rfl⟩, fun hc => absurd h1 hc, by simp, by simp,
        fun _ _ => rfl, fun hc => absurd h1 hc, fun r hr => ?_⟩
      exact absurd hr (by simp)
  · by_cases h2 : r1.code = CODE_OK
    · rw [session_post_first_ok path r1 r2 h1 h2]
      refine ⟨fun hc => absurd hc h1, fun _ => ⟨rfl, rfl⟩, by simp, by simp,
        fun hc => absurd hc h1, fun _ hc => absurd h2 hc, fun r hr => ?_⟩
      cases hr
      exact h2
    · rw [session_post_first_err path r1 r2 h1 h2]
      refine ⟨fun hc => absurd hc h1, fun _ => ⟨rfl, rfl⟩, by simp, by simp,
        fun hc => absurd hc h1, fun _ _ => rfl, fun r hr => ?_⟩
      exact absurd hr (by simp)

/-- Witness for claim C9: an expired-then-ok exchange re-sends exactly
once; a retry that fails again (code 11 twice) and a plain device error
(code 3) both raise the switch error with full context. -/
theorem claim_C9_witness :
    (session_post "/vlan.cgi" { code := 11 } { code := 0, data := "ok" }).posts_sent = 2 ∧
    (session_post "/vlan.cgi" { code := 11 } { code := 0, data := "ok" }).relogins = 1 ∧
    (session_post "/port.cgi" { code := 11 } { code := 11 }).result =
      Except.error { code := 11, message := "", endpoint := "/port.cgi",
                     payload := { code := 11 } } ∧
    (session_post "/login.cgi" { code := 3, data := "bad" } { code := 0 }).result =
      Except.error { code := 3, message := "bad", endpoint := "/login.cgi",
                     payload := { code := 3, data := "bad" } } :=
  ⟨((claim_C9_post_retry_once "/vlan.cgi" { code := 11 } { code := 0, data := "ok" }).1 rfl).1,
   ((claim_C9_post_retry_once "/vlan.cgi" { code := 11 } { code := 0, data := "ok" }).1 rfl).2,
   (claim_C9_post_retry_once "/port.cgi" { code := 11 } { code := 11 }).2.2.2.2.1
     rfl (by decide),
   (claim_C9_post_retry_once "/login.cgi" { code := 3, data := "bad" } { code := 0 }).2.2.2.2.2.1
     (by decide) (by decide)⟩

/-! ## Claim C10: the driver never deletes a VLAN -/

theorem build_plan_no_delete (c d : DeviceConfig) (m r : Bool) (s : Option Int) :
    ∀ ch ∈ (build_device_plan c d false m r s).plan.changes,
      ¬ ch.kind = ChangeKind.vlan_delete := by
  intro ch hch hk
  rcases mem_build_device_plan_cases hch with ⟨_, _, hc⟩ | ⟨_, _, hu⟩ | ⟨_, _, hp⟩ | hd
  · rw [vlanLoopCreate_kind hc] at hk
    exact ChangeKind.noConfusion hk
  · rw [vlanLoopUpdate_kind hu] at hk
    exact ChangeKind.noConfusion hk
  · rw [portLoopChange_kind hp] at hk
    exact ChangeKind.noConfusion hk
  · rw [deleteSection_false] at hd
    exact absurd hd (List.not_mem_nil ch)

theorem applyChangeEffects_no_delete {d : DeviceConfig} {ch : Change}
    (hk : ¬ ch.kind = ChangeKind.vlan_delete) :
    ∀ eff ∈ applyChangeEffects d ch, ∀ vids, ¬ eff = Eff.vlan_delete vids := by
  intro eff heff vids habs
  subst habs
  unfold applyChangeEffects at heff
  split at heff
  · split at heff
    · split at heff
      · rcases List.mem_append.mp heff with h | h
        · rcases List.mem_append.mp h with h2 | h2
          · simp at h2
          · split at h2 <;> simp at h2
        · split at h <;> simp at h
      · simp at heff
    · simp at heff
  · split at heff
    · split at heff
      · rcases List.mem_append.mp heff with h | h
        · rcases List.mem_append.mp h with h2 | h2
          · simp at h2
          · split at h2 <;> simp at h2
        · split at h <;> simp at h
      · simp at heff
    · simp at heff
  · next x hdel =>
    exact hk hdel
  · split at heff <;> simp at heff

theorem deleteSection_false_warns {current desired : DeviceConfig}
    (hne : ¬ extraVlans current desired = []) :
    (deleteSection false current desired).2 =
      [extraVlansWarning (extraVlans current desired)] := by
  unfold deleteSection
  rw [if_neg (by simp : ¬ false = true), if_pos hne]

/-- Claim C10: `apply_device_config` never deletes a VLAN — it builds the
plan with `allow_vlan_delete` left at its default `False`, so neither the
applied plan nor the post-apply residual plan ever contains a
`vlan_delete` change, no `delete_vlans` write operation is ever invoked,
a VLAN absent from the desired config never appears in any change, and
such extra VLANs only surface as the documented warning. -/
theorem claim_C10_apply_never_deletes (env : DriverEnv) (desired : DeviceConfig) (cm : Bool)
    (bbc : Option Bool) :
    (∀ ch ∈ (applyPlan env desired).plan.changes, ¬ ch.kind = ChangeKind.vlan_delete) ∧
    (∀ ch ∈ (residualPlan env desired).plan.changes, ¬ ch.kind = ChangeKind.vlan_delete) ∧
    (∀ eff ∈ (apply_device_config env desired cm bbc).2, ∀ vids,
       ¬ eff = Eff.vlan_delete vids) ∧
    (∀ v, alist.hasKey (normalize_device_config desired).vlans v = false →
       ∀ ch ∈ (applyPlan env desired).plan.changes,
         ¬ ch.detailInt "vlan_id" = some v) ∧
    (¬ extraVlans
        (normalize_device_config (DeviceConfig.from_current env.current_vlans env.current_ports))
        (normalize_device_config desired) = [] →
      extraVlansWarning (extraVlans
        (normalize_device_config (DeviceConfig.from_current env.current_vlans env.current_ports))
        (normalize_device_config desired)) ∈ (applyPlan env desired).warnings) := by
  refine ⟨build_plan_no_delete _ _ _ _ _, build_plan_no_delete _ _ _ _ _, ?_, ?_, ?_⟩
  · intro eff heff vids
    unfold apply_device_config at heff
    dsimp only at heff
    split at heff
    · simp at heff
    · split at heff
      · simp at heff
      · split at heff
        · dsimp only at heff
          rcases List.mem_append.mp heff with h | h
          · split at h <;> simp_all
          · rw [List.mem_flatten] at h
            rcases h with ⟨l, hl, hmem⟩
            rcases List.mem_map.mp hl with ⟨ch, hch, rfl⟩
            exact applyChangeEffects_no_delete
              (build_plan_no_delete _ _ _ _ _ ch hch) eff hmem vids
        · dsimp only at heff
          rcases List.mem_append.mp heff with h | h
          · split at h <;> simp_all
          · rw [List.mem_flatten] at h
            rcases h with ⟨l, hl, hmem⟩
            rcases List.mem_map.mp hl with ⟨ch, hch, rfl⟩
            exact applyChangeEffects_no_delete
              (build_plan_no_delete _ _ _ _ _ ch hch) eff hmem vids
  · intro v hv ch hch habs
    rcases mem_build_device_plan_cases hch with ⟨vid, _, hc⟩ | ⟨vid, _, hu⟩ | ⟨pid, _, hp⟩ | hd
    · rcases vlanLoopCreate_shape hc with ⟨cfg, hlook, _, rfl⟩
      have hvid : vid = v := by
        have := vlanLoopCreate_vid hc
        rw [this] at habs
        exact Option.some_inj.mp habs
      subst hvid
      rw [alist.hasKey_of_lookup hlook] at hv
      exact Bool.noConfusion hv
    · rcases vlanLoopUpdate_shape hu with ⟨cfg, entry, hlook, _, _, rfl⟩
      have hvid : vid = v := by
        have := vlanLoopUpdate_vid hu
        rw [this] at habs
        exact Option.some_inj.mp habs
      subst hvid
      rw [alist.hasKey_of_lookup hlook] at hv
      exact Bool.noConfusion hv
    · rcases portLoopChange_shape hp with ⟨cfg_p, cur_p, _, _, _, rfl⟩
      rw [Change.detailInt_eq_none_of_names ?_] at habs
      · exact Option.noConfusion habs
      · intro e he
        rcases List.mem_cons.mp he with rfl | he2
        · exact (by decide : ¬ ("port_id" : String) = "vlan_id")
        · rcases portFieldDiffs_names _ _ _ _ e he2 with h | h | h <;> rw [h] <;> decide
    · rw [deleteSection_false] at hd
      exact absurd hd (List.not_mem_nil _)
  · intro hne
    unfold applyPlan
    rw [build_device_plan_warnings]
    refine List.mem_append.mpr (Or.inr ?_)
    rw [deleteSection_false_warns hne]
    exact List.mem_singleton.mpr rfl

/-- Witness for claim C10: a real plan change (the VLAN-10 create at
`c7env`/`c7des`) is not a delete, and at `c10env` with an empty desired
config the extra VLAN 2 produces the documented warning. -/
theorem claim_C10_witness :
    c10ch ∈ (applyPlan c7env c7des).plan.changes ∧
    ¬ c10ch.kind = ChangeKind.vlan_delete ∧
    extraVlansWarning (extraVlans
      (normalize_device_config (DeviceConfig.from_current c10env.current_vlans c10env.current_ports))
      (normalize_device_config {})) ∈ (applyPlan c10env {}).warnings :=
  ⟨by decide,
   (claim_C10_apply_never_deletes c7env c7des false none).1 c10ch (by decide),
   (claim_C10_apply_never_deletes c10env {} false none).2.2.2.2 (by decide)⟩
